import Mathlib

/-!
Verification of the document ingestion and schema-mapping engine of a
financial data processing service, against its natural-language
specification.  The Python sources are shallowly embedded: pure functions
become Lean functions over `List`/`String`/`ℚ`, stateful registry code
becomes explicit state passing, fallible code returns `Option`/`Except`,
and file-system effects of the auto-fixer are reified as explicit
operation traces.  Pandas data frames are modelled as a header row plus a
list of string rows (the service reads CSV files with `dtype=str,
na_filter=False`, so cells are plain strings).
-/

/-! ## Python string primitives

Character-list based implementations of the Python string operations used
by the sources (`str.lower`, `str.strip`, substring membership `in`),
kept kernel-computable so concrete runs can be settled by `decide`/`rfl`.
Inputs in this code base are ASCII, so ASCII case folding is faithful. -/

def pyLowerChars (cs : List Char) : List Char := cs.map Char.toLower

def pyIsSpace (c : Char) : Bool :=
  c = ' ' || c = '\t' || c = '\n' || c = '\r' || c = '\x0b' || c = '\x0c'

/-- Python `str.strip()`: drop leading and trailing whitespace. -/
def pyStripChars (cs : List Char) : List Char :=
  ((cs.dropWhile pyIsSpace).reverse.dropWhile pyIsSpace).reverse

def pyLower (s : String) : String := String.mk (pyLowerChars s.toList)

def pyStrip (s : String) : String := String.mk (pyStripChars s.toList)

/-- `leadSeg pat hay`: `pat` occurs at the very start of `hay`. -/
def leadSeg : List Char → List Char → Bool
  | [], _ => true
  | _ :: _, [] => false
  | p :: ps, h :: hs => p = h && leadSeg ps hs

/-- Python substring test `pat in hay` on character lists. -/
def subSeg (pat : List Char) : List Char → Bool
  | [] => pat.isEmpty
  | h :: hs => leadSeg pat (h :: hs) || subSeg pat hs

/-- Python substring test `pat in hay` on strings. -/
def strIn (pat hay : String) : Bool := subSeg pat.toList hay.toList

/-- Python truthiness of a string: non-empty. -/
def pyTruthyStr (s : String) : Bool := s ≠ ""

namespace CsvLoader

/-!
## Tabular reader — `app/utils/csv_loader.py`

`RobustCSVLoader.find_header_row` (lines 39-81) scans already-parsed CSV
rows for a header.  `RobustCSVLoader.load_csv_robust` (lines 140-171)
filters and normalizes the data rows that follow a located header.  Rows
are modelled after `csv` parsing: each row is the list of its cell
strings (for `load_csv_robust`, after `cell.strip().strip('"')`).
A `None`/`[]` distinction is not needed: Python treats an absent
`expected_headers`/`required_columns` list and an empty one identically
(both falsy), so the embedding uses `[]` for "not provided"; likewise
`min_row_fields = 0` is falsy and means "not provided".
-/

/-- The generic header vocabulary of `find_header_row` (line 73). -/
def commonHeaders : List String :=
  ["date", "amount", "description", "type", "balance", "posting"]

/-- `sum(1 for e in es for cell in cells if e in cell)`:
number of (expected, cell) pairs where `e` is a substring of `cell`. -/
def countPairMatches (es cells : List String) : Nat :=
  (es.map (fun e => cells.countP (fun c => strIn e c))).sum

/-- Row cells as compared by `find_header_row`: `cell.lower().strip()`. -/
def rowLower (row : List String) : List String :=
  row.map (fun c => pyStrip (pyLower c))

/-- The 70% expected-header threshold of line 68,
`matches >= len(expected_headers) * 0.7`, read exactly over ℚ. -/
def expectedThreshold (expected row : List String) : Bool :=
  10 * countPairMatches (expected.map pyLower) (rowLower row)
    ≥ 7 * expected.length

/-- The generic header heuristic of lines 72-77: at least two
(common-token, cell) substring pairs. -/
def commonThreshold (row : List String) : Bool :=
  countPairMatches commonHeaders (rowLower row) ≥ 2

/-- Line 56: a row is skipped when empty or all-blank. -/
def rowBlank (row : List String) : Bool :=
  row.isEmpty || row.all (fun c => pyStrip c = "")

/-- `RobustCSVLoader.find_header_row`: scan enumerated rows; return the
first non-blank row passing the expected-header match (when expected
headers are provided) or the generic heuristic.  `none` models the
`ValueError("Could not find header row in CSV file")` raised at line 81. -/
def findHeaderRow (expected : List String) :
    List (Nat × List String) → Option (Nat × List String)
  | [] => none
  | (i, row) :: rest =>
    if rowBlank row then findHeaderRow expected rest
    else if expected ≠ [] && expectedThreshold expected row then some (i, row)
    else if commonThreshold row then some (i, row)
    else findHeaderRow expected rest

/-- Row-width tolerance of line 148:
`len(header)-1 <= len(row) <= len(header)+1` (over ℤ, as in Python). -/
def inWindow (headerLen rowLen : Nat) : Bool :=
  (headerLen : Int) - 1 ≤ (rowLen : Int) && (rowLen : Int) ≤ (headerLen : Int) + 1

/-- Line 152: `row[:len(header)] + [''] * (len(header) - len(row))`. -/
def normalizeRow (headerLen : Nat) (row : List String) : List String :=
  row.take headerLen ++ List.replicate (headerLen - row.length) ""

/-- Line 155: number of required header positions whose normalized cell
is non-empty (`sum(1 for i, col in enumerate(header) if col in
required_columns and normalized_row[i])`). -/
def nonEmptyRequired (header normalized required : List String) : Nat :=
  (header.zip normalized).countP
    (fun p => decide (p.1 ∈ required) && pyTruthyStr p.2)

/-- The required-fields acceptance test of lines 153-163: vacuous when no
required columns are configured; otherwise the populated-required count
must reach `min_row_fields` when that is set (non-zero), else the full
required count. -/
def passesRequired (header required : List String) (minRowFields : Nat)
    (normalized : List String) : Bool :=
  if required = [] then true
  else
    let cnt := nonEmptyRequired header normalized required
    if minRowFields ≠ 0 then decide (cnt ≥ minRowFields)
    else decide (cnt ≥ required.length)

/-- The data-row loop of `load_csv_robust` (lines 140-171): returns
`(data_rows, malformed_rows)`.  Empty rows are skipped; rows outside the
±1 width window are recorded raw in the malformed log; rows inside the
window are normalized to header width and then either rejected into the
malformed log by the required-fields test or accepted. -/
def loadDataRows (header required : List String) (minRowFields : Nat) :
    List (List String) → List (List String) × List (List String)
  | [] => ([], [])
  | row :: rest =>
    let acc := loadDataRows header required minRowFields rest
    if rowBlank row then acc
    else if ¬ inWindow header.length row.length then (acc.1, row :: acc.2)
    else
      let normalized := normalizeRow header.length row
      if passesRequired header required minRowFields normalized then
        (normalized :: acc.1, acc.2)
      else (acc.1, normalized :: acc.2)

end CsvLoader

namespace CsvUtils

/-!
## Amount utilities — `app/utils/csv_utils.py`

`CSVUtils.clean_amount` (lines 129-147) and `CSVUtils.is_valid_amount`
(lines 232-242), plus the Bank-of-America amount scan of
`ValidationService._validate_boa_file` (lines 410-418).  Python `float`
values are modelled as `PyFloat` (exact rationals plus the special
values); `float(str)` is embedded as `pyFloatOfString`, following the
documented grammar of Python float literals (optional sign, digits with
single underscores between digits, optional fraction and exponent, and
the case-insensitive special strings inf/infinity/nan).  Non-ASCII digit
forms, which do not occur in this code base, are not modelled.  Cell
values are `Option String`: `none` models a pandas null (`pd.isna`). -/

inductive PyFloat where
  | finite (q : ℚ)
  | inf
  | negInf
  | nan
deriving DecidableEq, Repr

/-- Digit run with single underscores allowed between digits; returns the
digits collected so far and the unconsumed remainder. -/
def digitsUGo (acc : List Char) : List Char → List Char × List Char
  | '_' :: d :: rest =>
    if d.isDigit then digitsUGo (acc ++ [d]) rest else (acc, '_' :: d :: rest)
  | ['_'] => (acc, ['_'])
  | c :: rest =>
    if c.isDigit then digitsUGo (acc ++ [c]) rest else (acc, c :: rest)
  | [] => (acc, [])

/-- Munch a digit run (with underscores); fails unless it starts with a
digit. -/
def munchDigitsU : List Char → Option (List Char × List Char)
  | c :: rest => if c.isDigit then some (digitsUGo [c] rest) else none
  | [] => none

def natOfDigits (ds : List Char) : Nat :=
  ds.foldl (fun n c => 10 * n + (c.toNat - 48)) 0

def fracOfDigits (ds : List Char) : ℚ :=
  (natOfDigits ds : ℚ) / (10 : ℚ) ^ ds.length

/-- Optional exponent part `[eE][+-]?digits`; absent exponent is 0. -/
def parseExpPart : List Char → Option (Int × List Char)
  | c :: rest =>
    if c = 'e' || c = 'E' then
      let p : Int × List Char :=
        match rest with
        | '+' :: r => (1, r)
        | '-' :: r => (-1, r)
        | r => (1, r)
      match munchDigitsU p.2 with
      | some (ds, rest3) => some (p.1 * (natOfDigits ds : Int), rest3)
      | none => none
    else some (0, c :: rest)
  | [] => some (0, [])

/-- Numeric body of a Python float literal (after sign):
`digits ['.'] [digits] | '.' digits`, then an optional exponent; the
whole input must be consumed. -/
def parseNumericBody (cs : List Char) : Option ℚ :=
  match cs with
  | '.' :: rest =>
    match munchDigitsU rest with
    | some (fds, rest2) =>
      match parseExpPart rest2 with
      | some (e, rest3) =>
        if rest3.isEmpty then some (fracOfDigits fds * (10 : ℚ) ^ e) else none
      | none => none
    | none => none
  | _ =>
    match munchDigitsU cs with
    | some (ids, rest) =>
      let p : List Char × List Char :=
        match rest with
        | '.' :: r2 =>
          match munchDigitsU r2 with
          | some (fds, r3) => (fds, r3)
          | none => ([], r2)
        | r => ([], r)
      match parseExpPart p.2 with
      | some (e, rest3) =>
        if rest3.isEmpty then
          some (((natOfDigits ids : ℚ) + fracOfDigits p.1) * (10 : ℚ) ^ e)
        else none
      | none => none
    | none => none

/-- Python `float(s)`: strip, optional sign, special strings
inf/infinity/nan (case-insensitive) or a numeric literal.  `none` models
the `ValueError` raised on malformed input. -/
def pyFloatOfString (s : String) : Option PyFloat :=
  let cs := pyStripChars s.toList
  let p : Bool × List Char :=
    match cs with
    | '+' :: r => (false, r)
    | '-' :: r => (true, r)
    | r => (false, r)
  let low := pyLowerChars p.2
  if low = "inf".toList || low = "infinity".toList then
    some (if p.1 then PyFloat.negInf else PyFloat.inf)
  else if low = "nan".toList then some PyFloat.nan
  else
    (parseNumericBody p.2).map
      (fun q => PyFloat.finite (if p.1 then -q else q))

/-- The string cleanup of `clean_amount` (lines 135-142): strip, remove
every `$` and `,`, and turn a fully parenthesized amount into a leading
minus sign. -/
def cleanAmountStr (s : String) : String :=
  let t := (pyStripChars s.toList).filter (fun c => c ≠ '$' && c ≠ ',')
  let t :=
    if t.head? = some '(' && t.getLast? = some ')' then
      '-' :: (t.drop 1).dropLast
    else t
  String.mk t

/-- `CSVUtils.clean_amount`: null maps to 0.0, and the `ValueError` of
`float` is caught and also mapped to 0.0 (lines 144-147). -/
def cleanAmount (v : Option String) : PyFloat :=
  match v with
  | none => PyFloat.finite 0
  | some s =>
    match pyFloatOfString (cleanAmountStr s) with
    | some f => f
    | none => PyFloat.finite 0

/-- `CSVUtils.is_valid_amount`: false on null; otherwise calls
`clean_amount` — which is total — inside a try/except whose handler is
therefore dead, and returns true. -/
def isValidAmount (v : Option String) : Bool :=
  match v with
  | none => false
  | some s =>
    let _ := cleanAmount (some s)
    true

/-- The invalid-amount scan of `_validate_boa_file` (lines 410-418):
collect the non-null amounts rejected by `is_valid_amount`; the
"Invalid amounts found" warning fires iff this list is non-empty. -/
def boaInvalidAmounts (col : List (Option String)) : List String :=
  (col.filterMap id).filter (fun s => ! isValidAmount (some s))

end CsvUtils

namespace MappingValidation

/-!
## Sample-data conversion check —
`app/services/mapping_validation_service.py`

`MappingValidationService._validate_against_sample_data` tests one
required field over the sample rows (lines 166-226): each value either
converts successfully or not (a null always fails), the two counters add
up over the column, the reported `success_rate` is
`conversion_success / len(df)` (0 for an empty frame), and a
low-conversion warning is appended exactly when `success_rate < 0.8`.
The per-value conversion test (`pd.to_datetime` under the declared
format, or the amount/description probes) is abstracted as a boolean
`parseOk`, since lines 213-226 treat it as an opaque success/failure. -/

/-- One iteration of the conversion loop (lines 170-211): a non-null
value that parses bumps `conversion_success`, anything else bumps
`conversion_failures`. -/
def convStep (parseOk : String → Bool) (acc : Nat × Nat) (v : Option String) :
    Nat × Nat :=
  match v with
  | some s => if parseOk s then (acc.1 + 1, acc.2) else (acc.1, acc.2 + 1)
  | none => (acc.1, acc.2 + 1)

/-- `(conversion_success, conversion_failures)` over the column. -/
def conversionCounts (parseOk : String → Bool) (col : List (Option String)) :
    Nat × Nat :=
  col.foldl (convStep parseOk) (0, 0)

/-- Line 217/224: `conversion_success / len(df) if len(df) > 0 else 0`,
read exactly over ℚ. -/
def successRate (parseOk : String → Bool) (col : List (Option String)) : ℚ :=
  if 0 < col.length then
    ((conversionCounts parseOk col).1 : ℚ) / col.length
  else 0

/-- Lines 224-226: the low-conversion warning is appended iff
`success_rate < 0.8`. -/
def lowConversionWarning (parseOk : String → Bool)
    (col : List (Option String)) : Bool :=
  decide (successRate parseOk col < 4 / 5)

/-- A value "converts successfully": non-null and parseable. -/
def convOk (parseOk : String → Bool) : Option String → Bool
  | some s => parseOk s
  | none => false

/-- Split a character list at a separator character. -/
def splitOnChar (c : Char) : List Char → List (List Char)
  | [] => [[]]
  | x :: rest =>
    match splitOnChar c rest with
    | [] => [[]]
    | h :: t => if x = c then [] :: h :: t else (x :: h) :: t

def allDigits (cs : List Char) : Bool := !cs.isEmpty && cs.all Char.isDigit

/-- A concrete MM/DD/YYYY date-shape test, used to instantiate the
abstract converter on concrete sample data. -/
def mdyOk (s : String) : Bool :=
  match splitOnChar '/' s.toList with
  | [m, d, y] => allDigits m && allDigits d && allDigits y && y.length = 4
  | _ => false

end MappingValidation

namespace SourceMapping

/-!
## Schema registry — `app/config/source_mapping.py`

`SourceMappingManager` keeps an in-memory map from lowercased
`source_id` to `SourceMappingConfig` and mirrors each schema to a JSON
file named after the (original-case) `source_id`.  The JSON layer is
embedded as an AST; `mapping.dict()` followed by `json.dump` becomes
`encodeConfig`, and `SourceMappingConfig(**json.load(f))` becomes
`decodeConfig` (pydantic re-validates field types; `use_enum_values`
serializes the mapping type as its string value).  File-system failure
is a boolean parameter: `_save_mapping` and `_delete_mapping_file` catch
any exception and merely print a warning (lines 361-374), which the
embedding mirrors by leaving the disk map unchanged on failure. -/

inductive Json where
  | null
  | bool (b : Bool)
  | num (q : ℚ)
  | str (s : String)
  | arr (items : List Json)
  | obj (fields : List (String × Json))

inductive MappingType where
  | date
  | description
  | amount
  | optional
deriving DecidableEq, Repr

def MappingType.value : MappingType → String
  | .date => "date"
  | .description => "description"
  | .amount => "amount"
  | .optional => "optional"

def mappingTypeOfString (s : String) : Option MappingType :=
  if s = "date" then some .date
  else if s = "description" then some .description
  else if s = "amount" then some .amount
  else if s = "optional" then some .optional
  else none

structure ColumnMapping where
  source_column : String
  target_field : String
  mapping_type : MappingType
  required : Bool
  date_format : Option String
  amount_format : Option String
  description : Option String
deriving DecidableEq, Repr

structure SourceMappingConfig where
  source_id : String
  display_name : String
  description : String
  icon : String
  date_mapping : ColumnMapping
  description_mapping : ColumnMapping
  amount_mapping : ColumnMapping
  optional_mappings : List ColumnMapping
  expected_columns : List String
  required_columns : List String
  default_date_format : String
  default_amount_format : String
  example_data : Option (List (List (String × Json)))

def encodeOptStr : Option String → Json
  | none => .null
  | some s => .str s

def encodeColumnMapping (m : ColumnMapping) : Json :=
  .obj [("source_column", .str m.source_column),
    ("target_field", .str m.target_field),
    ("mapping_type", .str m.mapping_type.value),
    ("required", .bool m.required),
    ("date_format", encodeOptStr m.date_format),
    ("amount_format", encodeOptStr m.amount_format),
    ("description", encodeOptStr m.description)]

def encodeStrList (l : List String) : Json := .arr (l.map .str)

def encodeExampleData : Option (List (List (String × Json))) → Json
  | none => .null
  | some rows => .arr (rows.map .obj)

/-- `json.dump(mapping.dict())`: the persisted representation. -/
def encodeConfig (c : SourceMappingConfig) : Json :=
  .obj [("source_id", .str c.source_id),
    ("display_name", .str c.display_name),
    ("description", .str c.description),
    ("icon", .str c.icon),
    ("date_mapping", encodeColumnMapping c.date_mapping),
    ("description_mapping", encodeColumnMapping c.description_mapping),
    ("amount_mapping", encodeColumnMapping c.amount_mapping),
    ("optional_mappings", .arr (c.optional_mappings.map encodeColumnMapping)),
    ("expected_columns", encodeStrList c.expected_columns),
    ("required_columns", encodeStrList c.required_columns),
    ("default_date_format", .str c.default_date_format),
    ("default_amount_format", .str c.default_amount_format),
    ("example_data", encodeExampleData c.example_data)]

def jLookup (fields : List (String × Json)) (k : String) : Option Json :=
  (fields.find? (fun p => p.1 = k)).map (fun p => p.2)

def getStrField (fields : List (String × Json)) (k : String) : Option String :=
  match jLookup fields k with
  | some (.str s) => some s
  | _ => none

def getBoolField (fields : List (String × Json)) (k : String) : Option Bool :=
  match jLookup fields k with
  | some (.bool b) => some b
  | _ => none

/-- Optional string fields: pydantic accepts null and treats an absent
key as the default `None`. -/
def getOptStrField (fields : List (String × Json)) (k : String) :
    Option (Option String) :=
  match jLookup fields k with
  | some .null => some none
  | some (.str s) => some (some s)
  | none => some none
  | _ => none

def decodeColumnMapping : Json → Option ColumnMapping
  | .obj fields => do
    let sc ← getStrField fields "source_column"
    let tf ← getStrField fields "target_field"
    let mts ← getStrField fields "mapping_type"
    let mt ← mappingTypeOfString mts
    let req ← getBoolField fields "required"
    let df ← getOptStrField fields "date_format"
    let af ← getOptStrField fields "amount_format"
    let de ← getOptStrField fields "description"
    some ⟨sc, tf, mt, req, df, af, de⟩
  | _ => none

def decodeStr : Json → Option String
  | .str s => some s
  | _ => none

/-- Traverse a list with a fallible decoder (pydantic list-field
validation): every element must decode. -/
def optList {α β : Type} (f : α → Option β) : List α → Option (List β)
  | [] => some []
  | x :: rest =>
    match f x with
    | some y => (optList f rest).map (fun ys => y :: ys)
    | none => none

def decodeStrList : Json → Option (List String)
  | .arr xs => optList decodeStr xs
  | _ => none

def decodeObjFields : Json → Option (List (String × Json))
  | .obj fields => some fields
  | _ => none

def decodeExampleData : Json → Option (Option (List (List (String × Json))))
  | .null => some none
  | .arr xs => (optList decodeObjFields xs).map some
  | _ => none

/-- `SourceMappingConfig(**data)`: rebuild and re-validate the schema
from its persisted JSON. -/
def decodeConfig : Json → Option SourceMappingConfig
  | .obj fields => do
    let sid ← getStrField fields "source_id"
    let dn ← getStrField fields "display_name"
    let de ← getStrField fields "description"
    let ic ← getStrField fields "icon"
    let dm ← jLookup fields "date_mapping" >>= decodeColumnMapping
    let sm ← jLookup fields "description_mapping" >>= decodeColumnMapping
    let am ← jLookup fields "amount_mapping" >>= decodeColumnMapping
    let om ← match jLookup fields "optional_mappings" with
      | some (.arr xs) => optList decodeColumnMapping xs
      | _ => none
    let ec ← jLookup fields "expected_columns" >>= decodeStrList
    let rc ← jLookup fields "required_columns" >>= decodeStrList
    let ddf ← getStrField fields "default_date_format"
    let daf ← getStrField fields "default_amount_format"
    let ed ← match jLookup fields "example_data" with
      | some j => decodeExampleData j
      | none => some none
    some ⟨sid, dn, de, ic, dm, sm, am, om, ec, rc, ddf, daf, ed⟩
  | _ => none

/-- Association-list upsert, modelling Python dict assignment for
lookup purposes. -/
def alistUpsert {α : Type} (k : String) (v : α) (l : List (String × α)) :
    List (String × α) :=
  (k, v) :: l.filter (fun p => ¬ p.1 = k)

def alistGet {α : Type} : List (String × α) → String → Option α
  | [], _ => none
  | p :: rest, k => if p.1 = k then some p.2 else alistGet rest k

/-- Registry state: the manager-owned in-memory map (keys lowercased)
and the config directory (one JSON value per `source_id`-named file). -/
structure RegistryState where
  mem : List (String × SourceMappingConfig)
  disk : List (String × Json)

/-- `SourceMappingManager.get_mapping`. -/
def getMapping (st : RegistryState) (sid : String) :
    Option SourceMappingConfig :=
  alistGet st.mem (pyLower sid)

/-- `SourceMappingManager.add_mapping` (lines 384-387): update the
in-memory map first, then `_save_mapping`, whose write failure is
swallowed. -/
def addMapping (st : RegistryState) (c : SourceMappingConfig)
    (writeOk : Bool) : RegistryState :=
  { mem := alistUpsert (pyLower c.source_id) c st.mem
    disk := if writeOk then alistUpsert c.source_id (encodeConfig c) st.disk
      else st.disk }

/-- `SourceMappingManager.remove_mapping` (lines 389-396): delete from
the in-memory map, then `_delete_mapping_file`, whose failure is
swallowed. -/
def removeMapping (st : RegistryState) (sid : String) (deleteOk : Bool) :
    RegistryState × Bool :=
  if (alistGet st.mem (pyLower sid)).isSome then
    ({ mem := st.mem.filter (fun p => ¬ p.1 = pyLower sid)
       disk := if deleteOk then st.disk.filter (fun p => ¬ p.1 = sid)
         else st.disk }, true)
  else (st, false)

/-- `SourceMappingManager._load_mappings` (lines 334-353): start from
the built-in defaults, then for each config file decode it and install
it under the lowercased file stem; undecodable files are skipped with a
warning. -/
def loadMappings (defaults : List (String × SourceMappingConfig))
    (disk : List (String × Json)) : List (String × SourceMappingConfig) :=
  disk.foldl
    (fun acc p =>
      match decodeConfig p.2 with
      | some c => alistUpsert (pyLower p.1) c acc
      | none => acc)
    defaults

/-- A small concrete schema used by concrete registry runs. -/
def demoColumn (sc tf : String) (mt : MappingType) : ColumnMapping :=
  ⟨sc, tf, mt, true, none, none, none⟩

def demoConfig : SourceMappingConfig :=
  { source_id := "demo"
    display_name := "Demo"
    description := "Demo source"
    icon := "file"
    date_mapping := demoColumn "Date" "date" .date
    description_mapping := demoColumn "Description" "description" .description
    amount_mapping := demoColumn "Amount" "amount" .amount
    optional_mappings := []
    expected_columns := ["Date", "Description", "Amount"]
    required_columns := ["Date", "Description", "Amount"]
    default_date_format := "MM/DD/YYYY"
    default_amount_format := "USD"
    example_data := none }

end SourceMapping

namespace PdfExtractor

/-!
## PDF section extractor — `app/utils/pdf_table_extractor.py`

The extractor's input is the flattened page text (the `fitz` page join of
lines 264-266 is external I/O, so the embedding starts from the joined
text).  `extract_section_table_from_pdf` slices the named section,
locates a fuzzy header line, parses the body lines, and post-filters
rows against inferred per-column patterns.  `validate_pdf_format` and
`extract_section_table_from_pdf_with_config` wrap it with the
configuration flags.  `difflib.get_close_matches` — used only to build
the diagnostic `found_columns` list of `validate_pdf_format` and the
unused `mapping` of `_find_column_line` — is abstracted as a `closeMatch`
parameter.  Cells are `Option String`: `none` models the Python `None`
that `re.match(...).groups()` yields for an unmatched optional group. -/

/-- `_normalize_colname`: lowercase, then keep only `[a-z0-9]`. -/
def normalizeColname (s : String) : String :=
  String.mk ((pyLowerChars s.toList).filter
    (fun c => c.isDigit || (97 ≤ c.toNat && c.toNat ≤ 122)))

/-- First index at which `pat` occurs in the text (`str.find`); `none`
models -1. -/
def findSubIdx (pat : List Char) : List Char → Option Nat
  | [] => if pat.isEmpty then some 0 else none
  | c :: rest =>
    if leadSeg pat (c :: rest) then some 0
    else (findSubIdx pat rest).map (fun n => n + 1)

/-- The column splitter `re.split(r'\s\x7b2,\x7d|\t|\|', line)`: a run of
two or more whitespace characters, a lone tab, or a pipe delimits; a
lone non-tab whitespace character stays inside its token.  The classes
of delimiter and token characters make the regex scan equivalent to
this deterministic left-to-right pass. -/
def splitColsGo (cur cs : List Char) : List (List Char) :=
  match cs with
  | [] => [cur.reverse]
  | c :: rest =>
    if c = '|' then cur.reverse :: splitColsGo [] rest
    else if pyIsSpace c then
      match rest with
      | c2 :: rest2 =>
        if pyIsSpace c2 then
          cur.reverse :: splitColsGo [] ((c2 :: rest2).dropWhile pyIsSpace)
        else if c = '\t' then cur.reverse :: splitColsGo [] (c2 :: rest2)
        else splitColsGo (c :: cur) (c2 :: rest2)
      | [] =>
        if c = '\t' then cur.reverse :: splitColsGo [] []
        else splitColsGo (c :: cur) []
    else splitColsGo (c :: cur) rest
termination_by cs.length
decreasing_by
  all_goals simp_wf
  all_goals
    exact Nat.lt_succ_of_le (le_trans
      (List.Sublist.length_le (List.dropWhile_sublist _)) (by simp))

def splitCols (cs : List Char) : List String :=
  (splitColsGo [] cs).map String.mk

/-- `re.split(r"\s\x7b2,\x7d", s)`: only runs of two or more whitespace
characters delimit. -/
def splitRuns2Go (cur cs : List Char) : List (List Char) :=
  match cs with
  | [] => [cur.reverse]
  | c :: rest =>
    if pyIsSpace c then
      match rest with
      | c2 :: rest2 =>
        if pyIsSpace c2 then
          cur.reverse :: splitRuns2Go [] ((c2 :: rest2).dropWhile pyIsSpace)
        else splitRuns2Go (c :: cur) (c2 :: rest2)
      | [] => splitRuns2Go (c :: cur) []
    else splitRuns2Go (c :: cur) rest
termination_by cs.length
decreasing_by
  all_goals simp_wf
  all_goals
    exact Nat.lt_succ_of_le (le_trans
      (List.Sublist.length_le (List.dropWhile_sublist _)) (by simp))

def splitRuns2 (s : String) : List String :=
  (splitRuns2Go [] s.toList).map String.mk

/-- `re.split(r"\s+", s)`: any whitespace run delimits. -/
def splitWs1Go (cur cs : List Char) : List (List Char) :=
  match cs with
  | [] => [cur.reverse]
  | c :: rest =>
    if pyIsSpace c then cur.reverse :: splitWs1Go [] (rest.dropWhile pyIsSpace)
    else splitWs1Go (c :: cur) rest
termination_by cs.length
decreasing_by
  all_goals simp_wf
  all_goals
    exact Nat.lt_succ_of_le (le_trans
      (List.Sublist.length_le (List.dropWhile_sublist _)) (by simp))

def splitWs1 (s : String) : List String :=
  (splitWs1Go [] s.toList).map String.mk

/-- `str.splitlines()` for newline-separated extracted text: split on
`'\n'`, without a trailing empty line. -/
def splitNl (cur cs : List Char) : List (List Char) :=
  match cs with
  | [] => [cur.reverse]
  | c :: rest =>
    if c = '\n' then cur.reverse :: splitNl [] rest else splitNl (c :: cur) rest

def pySplitLines (cs : List Char) : List String :=
  if cs.isEmpty then []
  else
    let ps := splitNl [] cs
    (if ps.getLast? = some [] then ps.dropLast else ps).map String.mk

/-- `_find_column_line` (lines 202-234): the first line whose
whitespace/pipe-split, normalized tokens contain at least
`max(len(expected) - 1, 1)` of the normalized expected columns, exactly.
(The fuzzy `get_close_matches` call there only builds the `mapping`
dictionary, which the caller never uses, so it cannot affect the chosen
line.) -/
def findColumnLineGo (normExpected : List String) (threshold i : Nat) :
    List String → Option Nat
  | [] => none
  | line :: rest =>
    let parts := (splitCols (pyStripChars line.toList)).map normalizeColname
    if normExpected.countP (fun n => decide (n ∈ parts)) ≥ threshold then some i
    else findColumnLineGo normExpected threshold (i + 1) rest

def findColumnLine (expected : List String) (lines : List String) :
    Option Nat :=
  findColumnLineGo (expected.map normalizeColname)
    (max (expected.length - 1) 1) 0 lines

def isAmtChar (c : Char) : Bool :=
  c.isDigit || c = ',' || c = '.' || c = '-'

def isAlnumChar (c : Char) : Bool :=
  c.isDigit || (97 ≤ c.toNat && c.toNat ≤ 122) || (65 ≤ c.toNat && c.toNat ≤ 90)

/-- Greedy one-or-more munch of a character class. -/
def munch1 (p : Char → Bool) : List Char → Option (List Char × List Char)
  | c :: rest =>
    if p c then some (c :: rest.takeWhile p, rest.dropWhile p) else none
  | [] => none

def tryDateTwo : List Char → Option (List Char × List Char)
  | d1 :: d2 :: '/' :: e1 :: e2 :: rest =>
    if d1.isDigit && d2.isDigit && e1.isDigit && e2.isDigit then
      some ([d1, d2, '/', e1, e2], rest)
    else none
  | _ => none

def tryDateOne : List Char → Option (List Char × List Char)
  | d1 :: '/' :: e1 :: e2 :: rest =>
    if d1.isDigit && e1.isDigit && e2.isDigit then
      some ([d1, '/', e1, e2], rest)
    else none
  | _ => none

/-- The optional date group `([\d]\x7b1,2\x7d/[\d]\x7b2\x7d)?`: greedy
two leading digits, backtracking to one. -/
def tryDate (cs : List Char) : Option (List Char × List Char) :=
  match tryDateTwo cs with
  | some r => some r
  | none => tryDateOne cs

/-- The built-in positional row regex of line 313,
`\s*([\d,.-]+)\s+([\d,.-]+)\s+([\d,.-]+)\s+([\d]\x7b1,2\x7d/[\d]\x7b2\x7d)?\s*([A-Za-z0-9]+)?`
under `re.match` (prefix) semantics.  The amount/whitespace character
classes are disjoint, so the greedy scan needs no backtracking except
inside the optional date group; the two optional trailing groups are
followed by nothing, so a failed optional is simply skipped.  Returns
`m.groups()`. -/
def matchBuiltinRow (cs : List Char) : Option (List (Option String)) :=
  let s0 := cs.dropWhile pyIsSpace
  match munch1 isAmtChar s0 with
  | none => none
  | some (g1, r1) =>
    match munch1 pyIsSpace r1 with
    | none => none
    | some (_, r2) =>
      match munch1 isAmtChar r2 with
      | none => none
      | some (g2, r3) =>
        match munch1 pyIsSpace r3 with
        | none => none
        | some (_, r4) =>
          match munch1 isAmtChar r4 with
          | none => none
          | some (g3, r5) =>
            match munch1 pyIsSpace r5 with
            | none => none
            | some (_, r6) =>
              let dd : Option String × List Char :=
                match tryDate r6 with
                | some (g4, r7) => (some (String.mk g4), r7)
                | none => (none, r6)
              let r8 := dd.2.dropWhile pyIsSpace
              let g5 : Option String :=
                match munch1 isAlnumChar r8 with
                | some (g5c, _) => some (String.mk g5c)
                | none => none
              some [some (String.mk g1), some (String.mk g2),
                some (String.mk g3), dd.1, g5]

def truthyCell : Option String → Bool
  | some s => s ≠ ""
  | none => false

/-- The row-parse loop of `extract_section_table_from_pdf`
(lines 306-332).  `rowPattern` is the configured `row_pattern`: the
source accepts and documents it (line 242) but the loop never reads it,
so the parameter is deliberately unused here, exactly as in the code.
Each line is parsed by the built-in positional regex — accepted when
groups 0, 2 and 3 (Gross/Net/Date positions) are truthy, padded with
`""` and truncated to the column count — else by a two-or-more
whitespace split, retried as a single-whitespace split when too short,
and accepted only at exactly the column count. -/
def parseDataLines (rowPattern : Option String) (columns : List String)
    (skipBlank : Bool) : List String → List (List (Option String))
  | [] => []
  | line :: rest =>
    let tail := parseDataLines rowPattern columns skipBlank rest
    if skipBlank && pyStrip line = "" then tail
    else
      match matchBuiltinRow line.toList with
      | some groups =>
        let row := groups ++
          List.replicate (columns.length - groups.length) (some "")
        if truthyCell (row.getD 0 none) && truthyCell (row.getD 2 none) &&
            truthyCell (row.getD 3 none) then
          row.take columns.length :: tail
        else tail
      | none =>
        let r1 := splitRuns2 (pyStrip line)
        let row := if r1.length < columns.length then splitWs1 (pyStrip line)
          else r1
        if row.length = columns.length then row.map some :: tail else tail

/-- Python `str(cell)` on a dataframe cell: `str(None) = "None"`. -/
def strOfCell : Option String → String
  | some s => s
  | none => "None"

/-- `_detect_pattern`s date shape `\d\x7b1,2\x7d/\d\x7b1,2\x7d`
(prefix). -/
def dateShape : List Char → Bool
  | a :: b :: '/' :: c :: _ => a.isDigit && b.isDigit && c.isDigit
  | a :: '/' :: c :: _ => a.isDigit && c.isDigit
  | _ => false

/-- `[\d,]+\.\d\x7b2\x7d` (prefix). -/
def amountShapeA (cs : List Char) : Bool :=
  match munch1 (fun c => c.isDigit || c = ',') cs with
  | some (_, '.' :: a :: b :: _) => a.isDigit && b.isDigit
  | _ => false

/-- `[\d,]+\.\d\x7b2\x7d-` (prefix). -/
def amountShapeB (cs : List Char) : Bool :=
  match munch1 (fun c => c.isDigit || c = ',') cs with
  | some (_, '.' :: a :: b :: '-' :: _) => a.isDigit && b.isDigit
  | _ => false

def refShape : List Char → Bool
  | c :: _ => isAlnumChar c
  | [] => false

/-- `_detect_pattern` (lines 381-399). -/
def detectPattern (value : String) : String :=
  if value = "" then "empty"
  else if dateShape value.toList then "date"
  else if amountShapeA value.toList || amountShapeB value.toList then "amount"
  else if refShape value.toList then "reference"
  else "text"

/-- `_matches_pattern` (lines 431-442). -/
def matchesPattern (value : String) (pattern : String) : Bool :=
  if pattern = "empty" then value = "" || pyStrip value = ""
  else if pattern = "date" then dateShape value.toList
  else if pattern = "amount" then
    amountShapeA value.toList || amountShapeB value.toList
  else if pattern = "reference" then refShape value.toList
  else true

/-- First non-null sample of column `j`
(`df[col].dropna().head(100)` followed by `iloc[0]`). -/
def columnFirstSample (table : List (List (Option String))) (j : Nat) :
    Option String :=
  (table.filterMap (fun row => row.getD j none)).head?

/-- `TableMetadata.analyze_column_types`: one inferred pattern per
column position, absent when the column has no non-null sample.  (The
also-computed `column_types` never feed row validation and are
omitted.) -/
def columnPatterns (columns : List String)
    (table : List (List (Option String))) : List (Option String) :=
  (List.range columns.length).map
    (fun j => (columnFirstSample table j).map detectPattern)

/-- `_is_valid_row` (lines 368-378): every column with an inferred
pattern must match on `str(row[col]).strip()`. -/
def isValidRow (patterns : List (Option String))
    (row : List (Option String)) : Bool :=
  (List.range patterns.length).all
    (fun j =>
      match patterns.getD j none with
      | some pat => matchesPattern (pyStrip (strOfCell (row.getD j none))) pat
      | none => true)

/-- `_clean_and_validate_table` (lines 349-365). -/
def cleanAndValidateTable (columns : List String)
    (table : List (List (Option String))) : List (List (Option String)) :=
  table.filter (isValidRow (columnPatterns columns table))

structure ExtractedTable where
  columns : List String
  rows : List (List (Option String))

def listMin : List Nat → Option Nat
  | [] => none
  | n :: rest => some (rest.foldl min n)

/-- `extract_section_table_from_pdf` (lines 237-346) from flattened page
text: locate the section, optionally truncate at the nearest stop header
found at a positive offset, find the header line, parse the body lines,
and post-filter by inferred column patterns when `validate_rows`. -/
def extractSectionTable (text : String) (sectionHeader : String)
    (columns : List String) (rowPattern : Option String)
    (stopHeaders : Option (List String)) (skipBlank validateRows : Bool) :
    Except String ExtractedTable :=
  match findSubIdx sectionHeader.toList text.toList with
  | none => Except.error "Section not found in PDF."
  | some idx =>
    let sectionChars := text.toList.drop idx
    let sectionChars :=
      match stopHeaders with
      | some hs =>
        let stops := hs.filterMap
          (fun h =>
            match findSubIdx h.toList sectionChars with
            | some j => if 0 < j then some j else none
            | none => none)
        match listMin stops with
        | some m => sectionChars.take m
        | none => sectionChars
      | none => sectionChars
    let lines := pySplitLines sectionChars
    match findColumnLine columns lines with
    | none =>
      Except.error "Could not find table header matching expected columns."
    | some colIdx =>
      let dataLines := lines.drop (colIdx + 1)
      let table := parseDataLines rowPattern columns skipBlank dataLines
      let table :=
        if validateRows && 0 < table.length then
          cleanAndValidateTable columns table
        else table
      Except.ok ⟨columns, table⟩

/-- Python `int(s)` for the date-fixer: strip, optional sign, digit run
(single underscores allowed). -/
def pyIntOfString (s : String) : Option Int :=
  let cs := pyStripChars s.toList
  let p : Bool × List Char :=
    match cs with
    | '+' :: r => (false, r)
    | '-' :: r => (true, r)
    | r => (false, r)
  match CsvUtils.munchDigitsU p.2 with
  | some (ds, []) =>
    some (if p.1 then -(CsvUtils.natOfDigits ds : Int)
      else (CsvUtils.natOfDigits ds : Int))
  | _ => none

def padNatStr (w : Nat) (m : Nat) : String :=
  let s := toString m
  String.mk (List.replicate (w - s.length) '0') ++ s

/-- Python `f"..:0wd"` zero-padded formatting of an integer. -/
def padIntStr (w : Nat) (n : Int) : String :=
  if n < 0 then "-" ++ padNatStr (w - 1) n.natAbs else padNatStr w n.natAbs

/-- `add_year_to_date_column.fix_date` (lines 159-167): a stripped value
containing `/` that splits into exactly two int-parsable parts becomes
`YYYY-MM-DD`; any failure returns the stripped value unchanged. -/
def fixDate (year : Int) (val : String) : String :=
  let v := pyStrip val
  if strIn "/" v then
    match MappingValidation.splitOnChar '/' v.toList with
    | [m, d] =>
      match pyIntOfString (String.mk m), pyIntOfString (String.mk d) with
      | some mi, some di =>
        padIntStr 4 year ++ "-" ++ padIntStr 2 mi ++ "-" ++ padIntStr 2 di
      | _, _ => v
    | _ => v
  else v

/-- `add_year_to_date_column` applied to the date column (first column
of that name). -/
def applyYearToDate (tbl : ExtractedTable) (year : Int) (dateCol : String) :
    ExtractedTable :=
  let j := tbl.columns.indexOf dateCol
  { columns := tbl.columns
    rows := tbl.rows.map
      (fun row => row.set j (some (fixDate year (strOfCell (row.getD j none))))) }

/-- The per-vendor `pdf_extraction` configuration block. -/
structure PdfConfig where
  enabled : Bool
  sectionHeader : Option String
  expectedColumns : List String
  rowPattern : Option String
  stopHeaders : Option (List String)
  validateRows : Bool
  errorOnSectionNotFound : Bool
  errorOnFormatMismatch : Bool
  errorOnNoValidRows : Bool
  minRows : Nat
  dateColumn : String

/-- `validate_pdf_format` (lines 23-88) from flattened page text.
`closeMatch` abstracts `difflib.get_close_matches(n, parts, n=1,
cutoff=0.7)`. -/
def validatePdfFormat (text : String) (cfg : PdfConfig)
    (closeMatch : String → List String → Option String) : Bool × String :=
  if !cfg.enabled then (false, "PDF extraction not enabled for vendor")
  else
    match cfg.sectionHeader with
    | none => (false, "No section header configured for vendor")
    | some sh =>
      if sh = "" then (false, "No section header configured for vendor")
      else if !strIn sh text then
        if cfg.errorOnSectionNotFound then
          (false, "Required section not found in PDF")
        else (true, "Section not found but error flag is False")
      else
        let sectionStart := (findSubIdx sh.toList text.toList).getD 0
        let sectionText := (text.toList.drop sectionStart).take 2000
        let lines := pySplitLines sectionText
        let normExpected := cfg.expectedColumns.map normalizeColname
        let found := (lines.take 20).foldl
          (fun acc line =>
            let parts := (splitCols (pyStripChars line.toList)).map
              normalizeColname
            acc ++ (cfg.expectedColumns.zip normExpected).filterMap
              (fun p =>
                if p.2 ∈ parts then some p.1
                else
                  match closeMatch p.2 parts with
                  | some _ => some p.1
                  | none => none))
          []
        let missing := cfg.expectedColumns.filter (fun c => !decide (c ∈ found))
        if !missing.isEmpty && cfg.errorOnFormatMismatch then
          (false, "Expected columns not found in PDF")
        else (true, "PDF format validation passed")

/-- `extract_section_table_from_pdf_with_config` (lines 91-154) from
flattened page text: enablement check, optional format validation, the
section extraction, the minimum-row check, and the year/date rewrite. -/
def extractWithConfig (text : String) (cfg : PdfConfig) (year : Int)
    (validateFormat : Bool)
    (closeMatch : String → List String → Option String) :
    Except String ExtractedTable :=
  if !cfg.enabled then Except.error "PDF extraction not enabled for vendor"
  else
    let gate : Except String Unit :=
      if validateFormat then
        let r := validatePdfFormat text cfg closeMatch
        if !r.1 then Except.error r.2 else Except.ok ()
      else Except.ok ()
    match gate with
    | Except.error e => Except.error e
    | Except.ok _ =>
      match cfg.sectionHeader with
      | none => Except.error "KeyError: section_header"
      | some sh =>
        match extractSectionTable text sh cfg.expectedColumns cfg.rowPattern
            cfg.stopHeaders true cfg.validateRows with
        | Except.error e => Except.error e
        | Except.ok tbl =>
          if tbl.rows.length < cfg.minRows && cfg.errorOnNoValidRows then
            Except.error "Extracted fewer rows than minimum required"
          else
            let tbl := if cfg.dateColumn ∈ tbl.columns then
                applyYearToDate tbl year cfg.dateColumn
              else tbl
            Except.ok tbl

/-- The GG-statement configuration with a choice of
`error_on_section_not_found`. -/
def ggConfig (flag : Bool) : PdfConfig :=
  { enabled := true
    sectionHeader := some "SUMMARY OF MONETARY BATCHES"
    expectedColumns := ["Gross", "R&C", "Net", "Date", "Ref"]
    rowPattern := none
    stopHeaders := none
    validateRows := true
    errorOnSectionNotFound := flag
    errorOnFormatMismatch := true
    errorOnNoValidRows := true
    minRows := 1
    dateColumn := "Date" }

/-- The `ADVANCED_VENDOR_CONFIG` row pattern (line 503). -/
def advancedRowPattern : String :=
  "(\\d\x7b2\x7d/\\d\x7b2\x7d/\\d\x7b4\x7d)\\s+(\\w+)\\s+([\\d,]+\\.\\d\x7b2\x7d)\\s+([\\d,]+\\.\\d\x7b2\x7d)\\s+([\\d,]+\\.\\d\x7b2\x7d)"

end PdfExtractor

namespace ValidationService

/-!
## Validator / issue detector — `app/services/validation_service.py` and
`app/utils/csv_utils.py:validate_csv_structure`

`validate_csv_file` is embedded over an abstract file: its existence /
type / size checks and the outcomes of its two reads become fields of
`FileModel`.  The full read (`pd.read_csv(dtype=str, na_filter=False)`,
line 121) and the read inside `_detect_source_specific_issues`
(line 995) are the same call on the same file, so both are modelled by
the single field `read`; the structural check's `pd.read_csv(nrows=5)`
is the separate field `structRead`.  `none` models the read raising.
Warning-only checks (date/amount formats, duplicates, ranges) never
touch `valid`, `errors`, `can_proceed` or `issues_detected` and are
omitted; `_fix_csv_formatting` returns its argument path in both
branches, so the `fixes_applied` branch of lines 64-67 is dead and
omitted.  Interpolated message texts are abridged to constants. -/

structure DFrame where
  cols : List String
  rows : List (List String)
deriving Repr, DecidableEq

structure Issue where
  type_ : String
  message : String
  fixable : Bool
deriving Repr, DecidableEq

structure VResult where
  valid : Bool
  errors : List String
  issues_detected : List Issue
  record_count : Nat
  can_proceed : Bool
  user_action_required : Bool
deriving Repr, DecidableEq

structure FileModel where
  fileFound : Bool
  validType : Bool
  validSize : Bool
  read : Option DFrame
  structRead : Option DFrame

/-- `source_mapping.get(source.lower(), source)` with the four
proper-case vendor names. -/
def sourceCaseMap (source : String) : String :=
  let l := pyLower source
  if l = "chase" then "Chase"
  else if l = "bankofamerica" then "BankOfAmerica"
  else if l = "restaurantdepot" then "RestaurantDepot"
  else if l = "sysco" then "Sysco"
  else source

def boaRequiredColumns : List String :=
  ["Status", "Date", "Original Description", "Amount"]

def chaseRequiredColumns : List String :=
  ["Posting Date", "Description", "Amount"]

def boaMissing (df : DFrame) : List String :=
  boaRequiredColumns.filter (fun c => !decide (c ∈ df.cols))

def chaseMissing (df : DFrame) : List String :=
  chaseRequiredColumns.filter (fun c => !decide (c ∈ df.cols))

/-- `df[col].iloc[0]` for string frames (first data row, named
column). -/
def firstCellOfCol (df : DFrame) (c : String) : String :=
  (df.rows.headD []).getD (df.cols.indexOf c) ""

/-- `_detect_chase_issues` (lines 1027-1070): a fixable
column-misalignment issue when the first Description value (or, absent
a Description column, the first over-long first-row value of any
column) exceeds 200 characters. -/
def detectChaseIssues (df : DFrame) : List Issue :=
  if "Description" ∈ df.cols ∧ 0 < df.rows.length then
    if 200 < (firstCellOfCol df "Description").length then
      [⟨"column_misalignment",
        "Chase file has complex transaction data in Description column",
        true⟩]
    else []
  else
    match df.cols.find?
        (fun c => decide (0 < df.rows.length) &&
          decide (200 < (firstCellOfCol df c).length)) with
    | some _ =>
      [⟨"column_misalignment",
        "Chase file has complex transaction data in a column", true⟩]
    | none => []

/-- `_detect_boa_issues` (lines 1072-1088): an unfixable
missing-columns issue. -/
def detectBoaIssues (df : DFrame) : List Issue :=
  if !(boaMissing df).isEmpty then
    [⟨"missing_columns", "Missing required columns", false⟩]
  else []

/-- `_detect_restaurant_depot_issues` / `_detect_sysco_issues`
(lines 1090-1120): an unfixable insufficient-data issue below three
columns. -/
def detectInvoiceIssues (df : DFrame) : List Issue :=
  if df.cols.length < 3 then
    [⟨"insufficient_data",
      "File appears to have insufficient data columns for an invoice",
      false⟩]
  else []

/-- `_detect_source_specific_issues` (lines 990-1025): a failed read is
caught and reported as a fixable csv_formatting issue; otherwise the
mapped vendor's detector runs. -/
def detectSourceSpecificIssues (read : Option DFrame) (source : String) :
    List Issue :=
  match read with
  | none => [⟨"csv_formatting", "CSV formatting issue", true⟩]
  | some df =>
    let m := sourceCaseMap source
    if m = "Chase" then detectChaseIssues df
    else if m = "BankOfAmerica" then detectBoaIssues df
    else if m = "RestaurantDepot" then detectInvoiceIssues df
    else if m = "Sysco" then detectInvoiceIssues df
    else []

def rdInvoiceIndicators : List String :=
  ["Invoice", "Date", "Total", "Amount", "Item"]

/-- `CSVUtils.validate_csv_structure` (csv_utils.py lines 16-64) on the
five-row probe read: per-source required/indicator columns, emptiness
and duplicate-rows checks; a failed read is caught as a reading
error. -/
def validateCsvStructure (structRead : Option DFrame) (source : String) :
    Bool × List String :=
  match structRead with
  | none => (false, ["File reading error"])
  | some df =>
    let errs1 : List String :=
      if source = "BankOfAmerica" then
        (boaMissing df).map (fun c => "Missing required column: " ++ c)
      else if source = "Chase" then
        (chaseMissing df).map (fun c => "Missing required column: " ++ c)
      else if source = "RestaurantDepot" || source = "Sysco" then
        let found := df.cols.filter
          (fun col => rdInvoiceIndicators.any (fun ind => strIn ind col))
        if found.length < 2 then ["File may not be in expected format"]
        else []
      else []
    let errs2 := if df.rows.length = 0 then ["File is empty"] else []
    let errs3 := if !decide df.rows.Nodup then
        ["File contains duplicate rows"]
      else []
    let errors := errs1 ++ errs2 ++ errs3
    (errors.isEmpty, errors)

/-- What one source-specific validator contributes to the result
record: appended errors, the validity of its checks (each source
validator sets `valid = False` exactly when it appends an error),
appended issues, and whether it forces `user_action_required` /
`can_proceed = False`. -/
structure VDelta where
  errs : List String
  ok : Bool
  issues : List Issue
  forceUser : Bool
  forceCan : Bool
deriving Repr

def applyDelta (r : VResult) (d : VDelta) : VResult :=
  { r with errors := r.errors ++ d.errs
           valid := r.valid && d.ok
           issues_detected := r.issues_detected ++ d.issues
           user_action_required := r.user_action_required || d.forceUser
           can_proceed := r.can_proceed && !d.forceCan }

/-- `_validate_boa_file` (lines 391-473): one error per missing
required column, `valid = False` alongside; all other checks are
warnings. -/
def boaDelta (df : DFrame) : VDelta :=
  ⟨(boaMissing df).map (fun c => "Missing required column: " ++ c),
    (boaMissing df).isEmpty, [], false, false⟩

/-- Lines 514-527 of `_validate_chase_file`: the unfixable
column-misalignment finding. -/
def chaseMisalignment (df : DFrame) : Bool :=
  decide ("Description" ∈ df.cols) && decide (0 < df.rows.length) &&
    decide (200 < (firstCellOfCol df "Description").length)

/-- `_validate_chase_file` (lines 475-659): a single joined
missing-columns error with `valid = False`, plus the unfixable
misalignment issue that also forces `user_action_required` and
`can_proceed = False`; the rest are warnings. -/
def chaseDelta (df : DFrame) : VDelta :=
  ⟨(if (chaseMissing df).isEmpty then [] else ["Missing required columns"]),
    (chaseMissing df).isEmpty,
    (if chaseMisalignment df then
      [⟨"column_misalignment",
        "The Description column contains complex transaction data instead of simple descriptions",
        false⟩]
    else []),
    chaseMisalignment df, chaseMisalignment df⟩

/-- `_validate_restaurant_depot_file` / `_validate_sysco_file`
(lines 661-683). -/
def invoiceDelta (msg : String) (df : DFrame) : VDelta :=
  ⟨(if df.cols.length < 3 then [msg] else []), !(df.cols.length < 3),
    [], false, false⟩

/-- The unknown-source branch (lines 167-174). -/
def unknownDelta : VDelta :=
  ⟨["Unknown source type"], false, [], false, true⟩

/-- `_validate_general_csv` (lines 685-721): only the emptiness check
touches errors/valid. -/
def generalDelta (df : DFrame) : VDelta :=
  ⟨(if df.rows.length = 0 then ["File is empty"] else []),
    !(df.rows.length = 0), [], false, false⟩

/-- The source dispatch of `validate_csv_file` (lines 139-174): exact
proper-case match first, then the lowercase mapping retry, else the
unknown-source error. -/
def dispatchDelta (df : DFrame) (source : String) : VDelta :=
  if source = "BankOfAmerica" then boaDelta df
  else if source = "Chase" then chaseDelta df
  else if source = "RestaurantDepot" then
    invoiceDelta "File has too few columns for Restaurant Depot format" df
  else if source = "Sysco" then
    invoiceDelta "File has too few columns for Sysco format" df
  else
    let mapped := sourceCaseMap source
    if mapped ≠ source then
      if mapped = "Chase" then chaseDelta df
      else if mapped = "BankOfAmerica" then boaDelta df
      else if mapped = "RestaurantDepot" then
        invoiceDelta "File has too few columns for Restaurant Depot format" df
      else if mapped = "Sysco" then
        invoiceDelta "File has too few columns for Sysco format" df
      else unknownDelta
    else unknownDelta

/-- `_add_backward_compatibility` (lines 1384-1429): the part that
touches this record — any fixable issue forces `user_action_required`
and `can_proceed = False`.  (The present/required/missing-column
bookkeeping writes separate response keys and needs the global mapping
manager; it does not change the fields modelled here.) -/
def addBackwardCompatibility (r : VResult) : VResult :=
  if r.issues_detected.any (fun i => i.fixable) then
    { r with user_action_required := true, can_proceed := false }
  else r

/-- `ValidationService.validate_csv_file` (lines 27-194). -/
def validateCsvFile (f : FileModel) (source : String) : VResult :=
  let r0 : VResult := ⟨true, [], [], 0, true, false⟩
  if !f.fileFound then
    { r0 with
      errors := ["File does not exist"]
      valid := false
      can_proceed := false }
  else if !f.validType then
    { r0 with
      errors := ["Invalid file type"]
      valid := false
      can_proceed := false }
  else if !f.validSize then
    { r0 with
      errors := ["File too large"]
      valid := false
      can_proceed := false }
  else
    let sourceIssues := detectSourceSpecificIssues f.read source
    let fixable := sourceIssues.filter (fun i => i.fixable)
    let unfixable := sourceIssues.filter (fun i => !i.fixable)
    let r1 := { r0 with issues_detected := sourceIssues }
    let r2 := if !fixable.isEmpty then
        { r1 with user_action_required := true, can_proceed := false }
      else r1
    let r3 := if !unfixable.isEmpty then
        { r2 with
          user_action_required := true
          can_proceed := false
          errors := r2.errors ++ unfixable.map (fun i => i.message) }
      else r2
    let sv := validateCsvStructure f.structRead source
    let r4 := if !sv.1 then
        { r3 with
          errors := r3.errors ++ sv.2
          valid := false
          can_proceed := false }
      else r3
    match f.read with
    | none =>
      let r5 := { r4 with
        errors := r4.errors ++ ["CSV parsing error"]
        valid := false }
      let hasFix := r5.issues_detected.any (fun i => i.fixable)
      let r6 := { r5 with can_proceed := !hasFix }
      addBackwardCompatibility r6
    | some df =>
      let r5 := { r4 with record_count := df.rows.length }
      let r6 := applyDelta r5 (dispatchDelta df source)
      let r7 := applyDelta r6 (generalDelta df)
      addBackwardCompatibility r7

/-- A Chase export whose first Description value is over 200 characters
(the column-misalignment trigger). -/
def chaseDemoDF : DFrame :=
  { cols := ["Details", "Posting Date", "Description", "Amount", "Type",
      "Balance", "Check or Slip #"]
    rows := [["DEBIT", "01/15/2024", String.mk (List.replicate 201 'X'),
      "-421.50", "ACH_DEBIT", "100.00", ""]] }

def chaseDemoFile : FileModel :=
  { fileFound := true
    validType := true
    validSize := true
    read := some chaseDemoDF
    structRead := some chaseDemoDF }

end ValidationService

namespace AutoFix

/-!
## Auto-fixer and fix route —
`app/services/validation_service.py` (fix methods) and
`app/api/routes/file_routes.py:apply_automatic_fixes`

The file-system effects of the fix functions are reified as operation
traces: each fix emits its backup write and its overwrite of the
original in source order, and the route emits its single up-front
validation.  The Chase content rewrites (`extract_transaction_details`,
the optimization cleanups) are abstracted as string transforms — they
feed only the rewritten file body, never the trace or the reported
result.  Each fix in the route loop is modelled against the initial
read of the file (the loop re-reads the just-rewritten file in Python;
the trace and success reporting are unaffected). -/

open ValidationService

inductive FsOp where
  | backupWrite (path : String)
  | fileWrite (path : String)
deriving DecidableEq, Repr

inductive RouteOp where
  | validateFile
  | fs (op : FsOp)
deriving DecidableEq, Repr

structure FixResult where
  success : Bool
  message : String
  backupCreated : Option String
deriving DecidableEq, Repr

/-- `Path.with_suffix('.csv.backup')`: replace the final extension. -/
def withSuffixCsvBackup (p : String) : String :=
  let r := p.toList.reverse
  let i := r.indexOf '.'
  (if i < r.length then String.mk (r.drop (i + 1)).reverse else p)
    ++ ".csv.backup"

def chaseExpectedHeader : List String :=
  ["Details", "Posting Date", "Description", "Amount", "Type", "Balance",
    "Check or Slip #"]

def padTrimRow (n : Nat) (row : List String) : List String :=
  row.take n ++ List.replicate (n - row.length) ""

/-- `zip(*rows)` on a rectangular row list. -/
def transposeRect (rows : List (List String)) : List (List String) :=
  match rows with
  | [] => []
  | r0 :: rest =>
    let n := rest.foldl (fun a r => min a r.length) r0.length
    (List.range n).map (fun i => rows.map (fun r => r.getD i ""))

/-- `_fix_csv_formatting_issues` (lines 1278-1382): compute the cleaned
rows (Chase header repair or generic pad/trim plus empty-column drop),
rename the original to the `.csv.backup` sibling, then write the
cleaned file; an unreadable file or an empty reader fails without
touching the file system. -/
def fixCsvFormattingIssues (path : String)
    (csvRead : Option (List (List String))) : List FsOp × FixResult :=
  match csvRead with
  | none => ([], ⟨false, "Error fixing CSV formatting issues", none⟩)
  | some [] => ([], ⟨false, "CSV file is empty", none⟩)
  | some (header :: rows) =>
    let kept := rows.filter (fun r => r.any (fun c => !(pyStrip c = "")))
    let _cleanedRows :=
      if "Details" ∈ header ∧ "Posting Date" ∈ header ∧
          "Description" ∈ header then
        chaseExpectedHeader :: kept.map (padTrimRow chaseExpectedHeader.length)
      else
        let cleaned := header :: kept.map (padTrimRow header.length)
        let nonEmptyCols := (transposeRect cleaned).filter
          (fun col => (col.drop 1).any (fun cell => !(pyStrip cell = "")))
        if nonEmptyCols.isEmpty then [header] else transposeRect nonEmptyCols
    ([FsOp.backupWrite (withSuffixCsvBackup path), FsOp.fileWrite path],
      ⟨true, "CSV formatting issues fixed", some (withSuffixCsvBackup path)⟩)

/-- `_fix_chase_column_misalignment` (lines 1151-1209): read, write the
backup, rewrite the Description column through the pattern extractor,
overwrite; a failed read fails without file-system effects. -/
def fixChaseColumnMisalignment (path : String) (read : Option DFrame)
    (descTransform : String → String) : List FsOp × FixResult :=
  match read with
  | none => ([], ⟨false, "Error fixing Chase column misalignment", none⟩)
  | some df =>
    let _rewritten :=
      if "Description" ∈ df.cols then
        df.rows.map (fun row =>
          row.set (df.cols.indexOf "Description")
            (descTransform (row.getD (df.cols.indexOf "Description") "")))
      else df.rows
    ([FsOp.backupWrite (withSuffixCsvBackup path), FsOp.fileWrite path],
      ⟨true, "Chase transaction data parsed and simplified",
        some (withSuffixCsvBackup path)⟩)

/-- `_fix_chase_optimization` (lines 1211-1276): same protocol with the
description/amount cleanups. -/
def fixChaseOptimization (path : String) (read : Option DFrame)
    (descClean amtClean : String → String) : List FsOp × FixResult :=
  match read with
  | none => ([], ⟨false, "Error applying Chase optimization", none⟩)
  | some df =>
    let _rewritten :=
      df.rows.map (fun row =>
        let row := if "Description" ∈ df.cols then
            row.set (df.cols.indexOf "Description")
              (descClean (row.getD (df.cols.indexOf "Description") ""))
          else row
        if "Amount" ∈ df.cols then
          row.set (df.cols.indexOf "Amount")
            (amtClean (row.getD (df.cols.indexOf "Amount") ""))
        else row)
    ([FsOp.backupWrite (withSuffixCsvBackup path), FsOp.fileWrite path],
      ⟨true, "Chase file optimized", some (withSuffixCsvBackup path)⟩)

/-- `_apply_source_specific_fix` (lines 1122-1149). -/
def applySourceSpecificFix (path : String)
    (csvRead : Option (List (List String))) (read : Option DFrame)
    (descTransform descClean amtClean : String → String) (source : String)
    (issue : Issue) : List FsOp × FixResult :=
  if issue.type_ = "csv_formatting" then fixCsvFormattingIssues path csvRead
  else if issue.type_ = "column_misalignment" then
    if pyLower source = "chase" then
      fixChaseColumnMisalignment path read descTransform
    else ([], ⟨false, "No automatic fix available", none⟩)
  else if issue.type_ = "chase_optimization" then
    if pyLower source = "chase" then
      fixChaseOptimization path read descClean amtClean
    else ([], ⟨false, "No automatic fix available", none⟩)
  else ([], ⟨false, "No automatic fix available", none⟩)

structure RouteResponse where
  message : String
  fixesApplied : List String
deriving DecidableEq, Repr

/-- The per-issue loop of `apply_automatic_fixes` (file_routes.py lines
748-756): apply a fix for each fixable issue, collect the success
messages and the file-system operations in order. -/
def routeFixLoop (path : String) (csvRead : Option (List (List String)))
    (read : Option DFrame) (descTransform descClean amtClean : String → String)
    (source : String) : List Issue → List RouteOp × List String
  | [] => ([], [])
  | issue :: rest =>
    let tail := routeFixLoop path csvRead read descTransform descClean
      amtClean source rest
    if issue.fixable then
      let fr := applySourceSpecificFix path csvRead read descTransform
        descClean amtClean source issue
      (fr.1.map RouteOp.fs ++ tail.1,
        (if fr.2.success then [fr.2.message] else []) ++ tail.2)
    else tail

/-- `apply_automatic_fixes` (file_routes.py lines 725-775): existence
check, one validation to collect issues, the fix loop, and the success
report — with no further validation after any fix. -/
def applyAutomaticFixes (path : String) (f : FileModel)
    (csvRead : Option (List (List String)))
    (descTransform descClean amtClean : String → String) (source : String) :
    List RouteOp × RouteResponse :=
  if !f.fileFound then ([], ⟨"File not found", []⟩)
  else
    let vr := validateCsvFile f source
    let loop := routeFixLoop path csvRead f.read descTransform descClean
      amtClean source vr.issues_detected
    let ops := RouteOp.validateFile :: loop.1
    if !loop.2.isEmpty then
      (ops, ⟨"Automatic fixes applied successfully", loop.2⟩)
    else (ops, ⟨"No automatic fixes were needed", []⟩)

def isFileWriteOp : RouteOp → Bool
  | .fs (.fileWrite _) => true
  | _ => false

def isBackupOp : RouteOp → Bool
  | .fs (.backupWrite _) => true
  | _ => false

def isValidateOp : RouteOp → Bool
  | .validateFile => true
  | _ => false

/-- Every overwrite of the original file is preceded (in the trace) by
a backup write. -/
def backupBeforeOverwriteGo (seen : Bool) : List RouteOp → Bool
  | [] => true
  | op :: rest =>
    if isBackupOp op then backupBeforeOverwriteGo true rest
    else if isFileWriteOp op then seen && backupBeforeOverwriteGo seen rest
    else backupBeforeOverwriteGo seen rest

def backupBeforeOverwrite (ops : List RouteOp) : Bool :=
  backupBeforeOverwriteGo false ops

/-- Some validation step occurs after the first overwrite. -/
def revalidatedAfterFix (ops : List RouteOp) : Bool :=
  (ops.dropWhile (fun op => !isFileWriteOp op)).any isValidateOp

end AutoFix

namespace CsvLoader

theorem normalizeRow_length (headerLen : Nat) (row : List String)
    (h : row.length ≤ headerLen + 1) :
    (normalizeRow headerLen row).length = headerLen := by
  simp only [normalizeRow, List.length_append, List.length_take,
    List.length_replicate]
  omega

theorem loadDataRows_cons (header required : List String) (minRowFields : Nat)
    (row : List String) (rest : List (List String)) :
    loadDataRows header required minRowFields (row :: rest) =
      if rowBlank row then loadDataRows header required minRowFields rest
      else if ¬ inWindow header.length row.length then
        ((loadDataRows header required minRowFields rest).1,
          row :: (loadDataRows header required minRowFields rest).2)
      else if passesRequired header required minRowFields
          (normalizeRow header.length row) then
        (normalizeRow header.length row ::
            (loadDataRows header required minRowFields rest).1,
          (loadDataRows header required minRowFields rest).2)
      else
        ((loadDataRows header required minRowFields rest).1,
          normalizeRow header.length row ::
            (loadDataRows header required minRowFields rest).2) := rfl

end CsvLoader

/-- C4: if no row of the document passes the expected-columns match
(exact or 70% substring-pair overlap) and no row passes the generic
header heuristic (at least 2 common field-name token matches), then
`find_header_row` finds nothing and the loader fails with its
no-header-found error (modelled by `none`). -/
theorem c4_no_header_found (expected : List String)
    (rows : List (Nat × List String))
    (h : ∀ p ∈ rows, ¬ (CsvLoader.expectedThreshold expected p.2 = true ∨
          CsvLoader.commonThreshold p.2 = true)) :
    CsvLoader.findHeaderRow expected rows = none := by
  induction rows with
  | nil => rfl
  | cons p rest ih =>
    have hp := h p (List.mem_cons_self _ _)
    have hrest : ∀ q ∈ rest, ¬ (CsvLoader.expectedThreshold expected q.2 = true ∨
        CsvLoader.commonThreshold q.2 = true) :=
      fun q hq => h q (List.mem_cons_of_mem _ hq)
    obtain ⟨i, row⟩ := p
    push_neg at hp
    unfold CsvLoader.findHeaderRow
    by_cases hb : CsvLoader.rowBlank row = true
    · simp [hb, ih hrest]
    · simp [hb, hp.1, hp.2, ih hrest]

/-- Witness for C4: a two-line document whose rows match nothing. -/
theorem c4_no_header_found_witness :
    (∀ p ∈ [(0, ["foo", "bar"]), (1, ["x", "y", "z"])],
        ¬ (CsvLoader.expectedThreshold ["alpha", "beta", "gamma"] p.2 = true ∨
          CsvLoader.commonThreshold p.2 = true)) ∧
    CsvLoader.findHeaderRow ["alpha", "beta", "gamma"]
      [(0, ["foo", "bar"]), (1, ["x", "y", "z"])] = none := by
  refine ⟨by decide, c4_no_header_found _ _ (by decide)⟩

/-- C2 (amended): for a non-blank data row, (a) a cell count outside
`[header_len - 1, header_len + 1]` excludes the row from the data and
records it in the malformed-row log; (b) a cell count inside the window
leads to acceptance — normalized (padded/truncated) to exactly
`header_len` cells — provided the row also passes the required-columns
populated check (which is vacuous when no required columns are
configured). -/
theorem c2_row_window_amended (header required : List String)
    (minRowFields : Nat) (row : List String) (rest : List (List String))
    (hrow : CsvLoader.rowBlank row = false) :
    (CsvLoader.inWindow header.length row.length = false →
      CsvLoader.loadDataRows header required minRowFields (row :: rest) =
        ((CsvLoader.loadDataRows header required minRowFields rest).1,
          row :: (CsvLoader.loadDataRows header required minRowFields rest).2)) ∧
    (CsvLoader.inWindow header.length row.length = true →
      CsvLoader.passesRequired header required minRowFields
          (CsvLoader.normalizeRow header.length row) = true →
      CsvLoader.loadDataRows header required minRowFields (row :: rest) =
        (CsvLoader.normalizeRow header.length row ::
            (CsvLoader.loadDataRows header required minRowFields rest).1,
          (CsvLoader.loadDataRows header required minRowFields rest).2) ∧
      (CsvLoader.normalizeRow header.length row).length = header.length) := by
  constructor
  · intro hw
    rw [CsvLoader.loadDataRows_cons]
    simp [hrow, hw]
  · intro hw hreq
    have hlen : row.length ≤ header.length + 1 := by
      have := hw
      simp only [CsvLoader.inWindow, Bool.and_eq_true, decide_eq_true_eq] at this
      omega
    constructor
    · rw [CsvLoader.loadDataRows_cons]
      simp [hrow, hw, hreq]
    · exact CsvLoader.normalizeRow_length _ _ hlen

/-- Witness for C2's amended theorem: against a 5-column header with no
required columns, a 6-cell row is inside the window, accepted, and
truncated to 5 cells (the scenario from the spec), while the theorem's
first branch applies to a 7-cell row. -/
theorem c2_row_window_amended_witness :
    CsvLoader.loadDataRows ["A", "B", "C", "D", "E"] [] 0
        [["1", "2", "3", "4", "5", "6"]] =
      ([["1", "2", "3", "4", "5"]], []) ∧
    (CsvLoader.normalizeRow 5 ["1", "2", "3", "4", "5", "6"]).length = 5 := by
  have h := c2_row_window_amended ["A", "B", "C", "D", "E"] [] 0
    ["1", "2", "3", "4", "5", "6"] [] (by decide)
  have h2 := h.2 (by decide) (by decide)
  exact ⟨by simpa using h2.1, h2.2⟩

/-- Counterexample for C2 as stated: with required columns configured,
a row whose cell count is inside the tolerance window is nevertheless
rejected (into the malformed log) by the populated-required-fields
check, so "every row whose cell count lies inside that interval is
accepted" fails.  Here the header has 2 columns, both required; the
1-cell row `["1/1"]` is inside `[1, 3]` but only 1 of 2 required cells
is populated. -/
theorem c2_row_window_counterexample :
    CsvLoader.inWindow 2 1 = true ∧
    CsvLoader.loadDataRows ["Date", "Amount"] ["Date", "Amount"] 0
        [["1/1"]] = ([], [["1/1", ""]]) := by
  exact ⟨by decide, by decide⟩

/-- C10: `is_valid_amount` accepts every non-null value, because
`clean_amount` is total — it maps any unparseable string to 0.0 instead
of raising — so the validators' "Invalid amounts found" branch is
unreachable for non-null cells, and malformed amount strings are
silently treated as the amount 0.0. -/
theorem c10_amount_validation_vacuous :
    (∀ s : String, CsvUtils.isValidAmount (some s) = true) ∧
    (∀ col : List (Option String), CsvUtils.boaInvalidAmounts col = []) ∧
    (∀ s : String, CsvUtils.pyFloatOfString (CsvUtils.cleanAmountStr s) = none →
      CsvUtils.cleanAmount (some s) = CsvUtils.PyFloat.finite 0) := by
  refine ⟨fun s => rfl, fun col => ?_, fun s h => ?_⟩
  · simp [CsvUtils.boaInvalidAmounts, List.filter_eq_nil_iff, CsvUtils.isValidAmount]
  · simp [CsvUtils.cleanAmount, h]

/-- Witness for C10: the malformed amount string "abc" is unparseable
yet cleaned to exactly 0.0 and accepted as a valid amount. -/
theorem c10_amount_validation_vacuous_witness :
    CsvUtils.pyFloatOfString (CsvUtils.cleanAmountStr "abc") = none ∧
    CsvUtils.cleanAmount (some "abc") = CsvUtils.PyFloat.finite 0 ∧
    CsvUtils.isValidAmount (some "abc") = true := by
  refine ⟨by decide, c10_amount_validation_vacuous.2.2 "abc" (by decide),
    c10_amount_validation_vacuous.1 "abc"⟩

namespace MappingValidation

theorem conversionCounts_fst (parseOk : String → Bool)
    (col : List (Option String)) :
    ∀ a b : Nat, (col.foldl (convStep parseOk) (a, b)).1 =
      a + col.countP (convOk parseOk) := by
  induction col with
  | nil => intro a b; simp
  | cons v rest ih =>
    intro a b
    match v with
    | some s =>
      by_cases h : parseOk s = true
      · simp [convStep, h, List.countP_cons, convOk, ih]
        omega
      · simp [convStep, h, List.countP_cons, convOk, ih]
    | none =>
      simp [convStep, List.countP_cons, convOk, ih]

end MappingValidation

/-- C9: for a sample-data validation run of a required field over a
non-empty column, the reported success rate is exactly (number of
successfully converting values) / (number of rows), and the
low-conversion warning for the field is emitted iff that rate is
strictly below 0.8. -/
theorem c9_success_rate_exact (parseOk : String → Bool)
    (col : List (Option String)) (hne : col ≠ []) :
    MappingValidation.successRate parseOk col =
      (col.countP (MappingValidation.convOk parseOk) : ℚ) / col.length ∧
    (MappingValidation.lowConversionWarning parseOk col = true ↔
      MappingValidation.successRate parseOk col < 4 / 5) := by
  constructor
  · have hlen : 0 < col.length := List.length_pos.mpr hne
    simp only [MappingValidation.successRate, MappingValidation.conversionCounts,
      hlen, if_pos]
    rw [MappingValidation.conversionCounts_fst]
    simp
  · simp [MappingValidation.lowConversionWarning]

/-- Witness for C9, the spec's scenario: 10 sample rows, 3 with
unparseable dates under MM/DD/YYYY, give a success rate of exactly 0.7
and trigger the warning because 0.7 < 0.8. -/
theorem c9_success_rate_exact_witness :
    MappingValidation.successRate MappingValidation.mdyOk
        [some "01/15/2024", some "01/16/2024", some "01/17/2024",
          some "01/18/2024", some "01/19/2024", some "01/20/2024",
          some "01/21/2024", some "2024-01-15", some "junk", none] =
      7 / 10 ∧
    MappingValidation.lowConversionWarning MappingValidation.mdyOk
        [some "01/15/2024", some "01/16/2024", some "01/17/2024",
          some "01/18/2024", some "01/19/2024", some "01/20/2024",
          some "01/21/2024", some "2024-01-15", some "junk", none] =
      true := by
  have h := c9_success_rate_exact MappingValidation.mdyOk
    [some "01/15/2024", some "01/16/2024", some "01/17/2024",
      some "01/18/2024", some "01/19/2024", some "01/20/2024",
      some "01/21/2024", some "2024-01-15", some "junk", none]
    (by decide)
  have hcount :
      ([some "01/15/2024", some "01/16/2024", some "01/17/2024",
        some "01/18/2024", some "01/19/2024", some "01/20/2024",
        some "01/21/2024", some "2024-01-15", some "junk",
        (none : Option String)].countP
          (MappingValidation.convOk MappingValidation.mdyOk)) = 7 := by decide
  have hrate := h.1
  rw [hcount] at hrate
  have hrate2 : MappingValidation.successRate MappingValidation.mdyOk
      [some "01/15/2024", some "01/16/2024", some "01/17/2024",
        some "01/18/2024", some "01/19/2024", some "01/20/2024",
        some "01/21/2024", some "2024-01-15", some "junk", none] =
      7 / 10 := by
    rw [hrate]
    norm_num
  exact ⟨hrate2, h.2.mpr (by rw [hrate2]; norm_num)⟩

namespace SourceMapping

theorem mappingTypeOfString_value (t : MappingType) :
    mappingTypeOfString t.value = some t := by
  cases t <;> rfl

theorem decode_encode_columnMapping (m : ColumnMapping) :
    decodeColumnMapping (encodeColumnMapping m) = some m := by
  obtain ⟨sc, tf, mt, req, df, af, de⟩ := m
  cases mt <;> cases df <;> cases af <;> cases de <;> rfl

theorem optList_decode_encode_columnMapping (l : List ColumnMapping) :
    optList decodeColumnMapping (l.map encodeColumnMapping) = some l := by
  induction l with
  | nil => rfl
  | cons m rest ih =>
    simp [optList, decode_encode_columnMapping, ih]

theorem decodeStrList_encodeStrList (l : List String) :
    decodeStrList (encodeStrList l) = some l := by
  induction l with
  | nil => rfl
  | cons s rest ih =>
    simp only [encodeStrList, decodeStrList, List.map_cons] at *
    simp [optList, decodeStr, ih]

theorem decodeExampleData_encodeExampleData
    (ed : Option (List (List (String × Json)))) :
    decodeExampleData (encodeExampleData ed) = some ed := by
  cases ed with
  | none => rfl
  | some rows =>
    simp only [encodeExampleData, decodeExampleData]
    have h : optList decodeObjFields (rows.map Json.obj) = some rows := by
      induction rows with
      | nil => rfl
      | cons r rest ih => simp [optList, decodeObjFields, ih]
    simp [h]

theorem decodeStrList_map_str (l : List String) :
    decodeStrList (Json.arr (l.map Json.str)) = some l := by
  simpa [encodeStrList] using decodeStrList_encodeStrList l

theorem decode_encode_config (c : SourceMappingConfig) :
    decodeConfig (encodeConfig c) = some c := by
  obtain ⟨sid, dn, de, ic, dm, sm, am, om, ec, rc, ddf, daf, ed⟩ := c
  simp [decodeConfig, encodeConfig, jLookup, getStrField, getBoolField,
    getOptStrField, decode_encode_columnMapping,
    optList_decode_encode_columnMapping, decodeStrList_map_str,
    decodeStrList_encodeStrList, decodeExampleData_encodeExampleData]

theorem alistGet_upsert_self {α : Type} (k : String) (v : α)
    (l : List (String × α)) : alistGet (alistUpsert k v l) k = some v := by
  simp [alistGet, alistUpsert]

theorem alistGet_filter_keyne {α : Type} (k k' : String) (h : k' ≠ k)
    (l : List (String × α)) :
    alistGet (l.filter (fun p => ¬ p.1 = k)) k' = alistGet l k' := by
  induction l with
  | nil => rfl
  | cons p rest ih =>
    simp only [List.filter_cons]
    by_cases hp : p.1 = k
    · have hpk : ¬ p.1 = k' := fun hc => h (by rw [← hc]; exact hp)
      rw [if_neg (by simp [hp])]
      rw [ih]
      simp [alistGet, hpk]
    · rw [if_pos (by simp [hp])]
      simp only [alistGet]
      by_cases hk2 : p.1 = k'
      · simp [hk2]
      · simp only [decide_not] at ih
        simp [hk2, ih]

theorem alistGet_upsert_ne {α : Type} (k k' : String) (v : α)
    (l : List (String × α)) (h : k' ≠ k) :
    alistGet (alistUpsert k v l) k' = alistGet l k' := by
  have hk : ¬ ((k, v).1 = k') := fun hc => h hc.symm
  simp only [alistUpsert, alistGet]
  rw [if_neg hk]
  exact alistGet_filter_keyne k k' h l

theorem loadMappings_get_notin (defaults : List (String × SourceMappingConfig))
    (l : List (String × Json)) (key : String)
    (h : ∀ p ∈ l, pyLower p.1 ≠ key) :
    alistGet (loadMappings defaults l) key = alistGet defaults key := by
  induction l generalizing defaults with
  | nil => rfl
  | cons p rest ih =>
    have hp := h p (List.mem_cons_self _ _)
    have hrest : ∀ q ∈ rest, pyLower q.1 ≠ key :=
      fun q hq => h q (List.mem_cons_of_mem _ hq)
    simp only [loadMappings, List.foldl_cons]
    cases hd : decodeConfig p.2 with
    | none =>
      simp only [hd]
      exact ih defaults hrest
    | some cfg =>
      simp only [hd]
      calc alistGet (loadMappings (alistUpsert (pyLower p.1) cfg defaults) rest)
            key
          = alistGet (alistUpsert (pyLower p.1) cfg defaults) key :=
            ih _ hrest
        _ = alistGet defaults key :=
            alistGet_upsert_ne _ _ _ _ (fun hc => hp hc.symm)

end SourceMapping

/-- C8: a schema written with `add_mapping` and read back with
`get_mapping(source_id)` is returned field-for-field identical, and it
survives persistence: when the write succeeds and no other config file
on disk collides with its (lowercased) source id, re-running
`_load_mappings` over the config directory yields the identical schema
under its registry key. -/
theorem c8_put_get_roundtrip (st : SourceMapping.RegistryState)
    (defaults : List (String × SourceMapping.SourceMappingConfig))
    (c : SourceMapping.SourceMappingConfig)
    (hdisk : ∀ p ∈ st.disk, pyLower p.1 = pyLower c.source_id →
      p.1 = c.source_id) :
    SourceMapping.getMapping (SourceMapping.addMapping st c true) c.source_id =
      some c ∧
    SourceMapping.alistGet
        (SourceMapping.loadMappings defaults
          (SourceMapping.addMapping st c true).disk)
        (pyLower c.source_id) = some c := by
  constructor
  · exact SourceMapping.alistGet_upsert_self _ _ _
  · show SourceMapping.alistGet
      (SourceMapping.loadMappings defaults
        (SourceMapping.alistUpsert c.source_id
          (SourceMapping.encodeConfig c) st.disk))
      (pyLower c.source_id) = some c
    have hstep : SourceMapping.loadMappings defaults
        (SourceMapping.alistUpsert c.source_id
          (SourceMapping.encodeConfig c) st.disk) =
        SourceMapping.loadMappings
          (SourceMapping.alistUpsert (pyLower c.source_id) c defaults)
          (st.disk.filter (fun p => ¬ p.1 = c.source_id)) := by
      simp [SourceMapping.loadMappings, SourceMapping.alistUpsert,
        SourceMapping.decode_encode_config]
    rw [hstep]
    have hnotin : ∀ p ∈ st.disk.filter (fun p => ¬ p.1 = c.source_id),
        pyLower p.1 ≠ pyLower c.source_id := by
      intro p hp
      have hmem := (List.mem_filter.mp hp).1
      have hne : ¬ p.1 = c.source_id := by
        have := (List.mem_filter.mp hp).2
        simpa using this
      intro hlow
      exact hne (hdisk p hmem hlow)
    rw [SourceMapping.loadMappings_get_notin _ _ _ hnotin]
    exact SourceMapping.alistGet_upsert_self _ _ _

/-- Witness for C8: writing the demo schema into an empty registry and
reading it back — directly and after a reload from disk — returns it
unchanged. -/
theorem c8_put_get_roundtrip_witness :
    SourceMapping.getMapping
        (SourceMapping.addMapping ⟨[], []⟩ SourceMapping.demoConfig true)
        "demo" = some SourceMapping.demoConfig ∧
    SourceMapping.alistGet
        (SourceMapping.loadMappings []
          (SourceMapping.addMapping ⟨[], []⟩
            SourceMapping.demoConfig true).disk)
        (pyLower "demo") = some SourceMapping.demoConfig := by
  have h := c8_put_get_roundtrip ⟨[], []⟩ [] SourceMapping.demoConfig
    (by intro p hp; cases hp)
  exact h

/-- Counterexample for C7 as stated: `add_mapping` updates the
in-memory map before persisting, and `_save_mapping` swallows write
failures, so after a failed write the schema is present in memory while
the config directory is unchanged (here: still empty) — the in-memory
map IS updated and memory and disk diverge. -/
theorem c7_registry_atomicity_counterexample :
    SourceMapping.getMapping
        (SourceMapping.addMapping ⟨[], []⟩ SourceMapping.demoConfig false)
        "demo" = some SourceMapping.demoConfig ∧
    (SourceMapping.addMapping ⟨[], []⟩
        SourceMapping.demoConfig false).disk = [] := by
  exact ⟨rfl, rfl⟩

/-- C7 (amended): when persistence succeeds, memory and the schema's
backing file agree after `add_mapping` (both hold the schema) and after
`remove_mapping` (both drop it); but mutations are not all-or-nothing —
when the write or delete fails, the exception is swallowed and the
in-memory map is mutated anyway, leaving the disk state unchanged and
divergent. -/
theorem c7_registry_atomicity_amended (st : SourceMapping.RegistryState)
    (c : SourceMapping.SourceMappingConfig) (sid : String)
    (hmem : (SourceMapping.alistGet st.mem (pyLower sid)).isSome = true) :
    (SourceMapping.getMapping (SourceMapping.addMapping st c true)
        c.source_id = some c ∧
      SourceMapping.alistGet (SourceMapping.addMapping st c true).disk
        c.source_id = some (SourceMapping.encodeConfig c)) ∧
    (SourceMapping.getMapping (SourceMapping.addMapping st c false)
        c.source_id = some c ∧
      (SourceMapping.addMapping st c false).disk = st.disk) ∧
    (SourceMapping.getMapping (SourceMapping.removeMapping st sid true).1
        sid = none ∧
      SourceMapping.alistGet (SourceMapping.removeMapping st sid true).1.disk
        sid = none ∧
      SourceMapping.getMapping (SourceMapping.removeMapping st sid false).1
        sid = none ∧
      (SourceMapping.removeMapping st sid false).1.disk = st.disk) := by
  have hget_filter_none : ∀ (l : List (String × SourceMapping.SourceMappingConfig)),
      SourceMapping.alistGet
        (l.filter (fun p => ¬ p.1 = pyLower sid)) (pyLower sid) = none := by
    intro l
    induction l with
    | nil => rfl
    | cons p rest ih =>
      simp only [List.filter_cons]
      by_cases hp : p.1 = pyLower sid
      · rw [if_neg (by simp [hp])]
        exact ih
      · rw [if_pos (by simp [hp])]
        simp only [SourceMapping.alistGet]
        rw [if_neg hp]
        exact ih
  have hdisk_filter_none : ∀ (l : List (String × SourceMapping.Json)),
      SourceMapping.alistGet (l.filter (fun p => ¬ p.1 = sid)) sid = none := by
    intro l
    induction l with
    | nil => rfl
    | cons p rest ih =>
      simp only [List.filter_cons]
      by_cases hp : p.1 = sid
      · rw [if_neg (by simp [hp])]
        exact ih
      · rw [if_pos (by simp [hp])]
        simp only [SourceMapping.alistGet]
        rw [if_neg hp]
        exact ih
  refine ⟨⟨SourceMapping.alistGet_upsert_self _ _ _, ?_⟩,
    ⟨SourceMapping.alistGet_upsert_self _ _ _, rfl⟩, ?_, ?_, ?_, ?_⟩
  · show SourceMapping.alistGet
      (SourceMapping.alistUpsert c.source_id
        (SourceMapping.encodeConfig c) st.disk) c.source_id =
      some (SourceMapping.encodeConfig c)
    exact SourceMapping.alistGet_upsert_self _ _ _
  · simp only [SourceMapping.removeMapping, hmem, if_pos]
    exact hget_filter_none st.mem
  · simp only [SourceMapping.removeMapping, hmem, if_pos]
    exact hdisk_filter_none st.disk
  · simp only [SourceMapping.removeMapping, hmem, if_pos]
    exact hget_filter_none st.mem
  · simp only [SourceMapping.removeMapping, hmem, if_pos]
    rfl

/-- Witness for C7's amended theorem: on a registry holding the demo
schema in memory and on disk, a successful `add_mapping` leaves memory
and file in agreement, while a failed `remove_mapping` deletion leaves
the in-memory entry gone but the file still present. -/
theorem c7_registry_atomicity_amended_witness :
    SourceMapping.getMapping
        (SourceMapping.addMapping
          ⟨[("demo", SourceMapping.demoConfig)],
            [("demo", SourceMapping.encodeConfig SourceMapping.demoConfig)]⟩
          SourceMapping.demoConfig true) "demo" =
      some SourceMapping.demoConfig ∧
    SourceMapping.getMapping
        (SourceMapping.removeMapping
          ⟨[("demo", SourceMapping.demoConfig)],
            [("demo", SourceMapping.encodeConfig SourceMapping.demoConfig)]⟩
          "demo" false).1 "demo" = none ∧
    (SourceMapping.removeMapping
        ⟨[("demo", SourceMapping.demoConfig)],
          [("demo", SourceMapping.encodeConfig SourceMapping.demoConfig)]⟩
        "demo" false).1.disk =
      [("demo", SourceMapping.encodeConfig SourceMapping.demoConfig)] := by
  have h := c7_registry_atomicity_amended
    ⟨[("demo", SourceMapping.demoConfig)],
      [("demo", SourceMapping.encodeConfig SourceMapping.demoConfig)]⟩
    SourceMapping.demoConfig "demo" rfl
  exact ⟨h.1.1, h.2.2.2.2.1, h.2.2.2.2.2⟩

/-- C1 (code bug): with `validate_format` enabled and the configured
section header absent from the extracted text, the pipeline raises in
BOTH flag settings.  With `error_on_section_not_found = True` validation
fails as specified; but with the flag `False` — where validation
deliberately passes so that extraction can proceed tolerantly —
`extract_section_table_from_pdf` still raises its own unconditional
"Section not found" error (line 271), so the documented empty/partial
result is never returned.  Both branches hold for every fuzzy matcher. -/
theorem c1_section_absent_always_raises
    (cm : String → List String → Option String) :
    PdfExtractor.extractWithConfig
        "MERCHANT STATEMENT WITHOUT THE TARGET SECTION"
        (PdfExtractor.ggConfig true) 2024 true cm =
      Except.error "Required section not found in PDF" ∧
    PdfExtractor.extractWithConfig
        "MERCHANT STATEMENT WITHOUT THE TARGET SECTION"
        (PdfExtractor.ggConfig false) 2024 true cm =
      Except.error "Section not found in PDF." := by
  exact ⟨rfl, rfl⟩

/-- C5 (code bug): the extractor's row parse never consults the
configured `row_pattern` — the parse is identical for every configured
value — and with the ADVANCED_VENDOR_CONFIG pattern configured, a body
line shaped for the built-in positional regex is still parsed and
accepted by that built-in regex (the configured pattern, which requires
a leading DD/DD/DDDD date, matches no part of this line). -/
theorem c5_row_pattern_dead :
    (∀ (rp₁ rp₂ : Option String) (columns : List String) (skipBlank : Bool)
        (lines : List String),
      PdfExtractor.parseDataLines rp₁ columns skipBlank lines =
        PdfExtractor.parseDataLines rp₂ columns skipBlank lines) ∧
    PdfExtractor.parseDataLines (some PdfExtractor.advancedRowPattern)
        ["Date", "Batch", "Amount", "Fee", "Net"] true
        ["100.00 5.00 95.00 01/15 REF1"] =
      [[some "100.00", some "5.00", some "95.00", some "01/15",
        some "REF1"]] := by
  constructor
  · intro rp₁ rp₂ columns skipBlank lines
    induction lines with
    | nil => rfl
    | cons l rest ih =>
      simp only [PdfExtractor.parseDataLines]
      rw [ih]
  · rfl

namespace ValidationService

theorem validateCsvStructure_ok_iff (sr : Option DFrame) (source : String) :
    (validateCsvStructure sr source).1 = true ↔
      (validateCsvStructure sr source).2 = [] := by
  cases sr with
  | none => simp [validateCsvStructure]
  | some df => simp [validateCsvStructure, List.isEmpty_iff]

theorem boaDelta_ok_iff (df : DFrame) :
    (boaDelta df).ok = true ↔ (boaDelta df).errs = [] := by
  simp [boaDelta, List.isEmpty_iff]

theorem chaseDelta_ok_iff (df : DFrame) :
    (chaseDelta df).ok = true ↔ (chaseDelta df).errs = [] := by
  by_cases h : (chaseMissing df).isEmpty <;> simp [chaseDelta, h]

theorem invoiceDelta_ok_iff (msg : String) (df : DFrame) :
    (invoiceDelta msg df).ok = true ↔ (invoiceDelta msg df).errs = [] := by
  by_cases h : df.cols.length < 3 <;> simp [invoiceDelta, h]

theorem unknownDelta_ok_iff :
    unknownDelta.ok = true ↔ unknownDelta.errs = [] := by
  simp [unknownDelta]

theorem generalDelta_ok_iff (df : DFrame) :
    (generalDelta df).ok = true ↔ (generalDelta df).errs = [] := by
  by_cases h : df.rows.length = 0 <;> simp [generalDelta, h]

/-- The exact-name-first dispatch agrees with dispatching on the
lowercase-mapped source name. -/
theorem dispatchDelta_eq (df : DFrame) (source : String) :
    dispatchDelta df source =
      (if sourceCaseMap source = "Chase" then chaseDelta df
      else if sourceCaseMap source = "BankOfAmerica" then boaDelta df
      else if sourceCaseMap source = "RestaurantDepot" then
        invoiceDelta "File has too few columns for Restaurant Depot format" df
      else if sourceCaseMap source = "Sysco" then
        invoiceDelta "File has too few columns for Sysco format" df
      else unknownDelta) := by
  by_cases h1 : source = "BankOfAmerica"
  · subst h1; rfl
  · by_cases h2 : source = "Chase"
    · subst h2; rfl
    · by_cases h3 : source = "RestaurantDepot"
      · subst h3; rfl
      · by_cases h4 : source = "Sysco"
        · subst h4; rfl
        · simp only [dispatchDelta, h1, h2, h3, h4, if_false]
          by_cases hl1 : pyLower source = "chase"
          · have hm : sourceCaseMap source = "Chase" := by
              simp [sourceCaseMap, hl1]
            have hne : ¬ ("Chase" = source) := fun hc => h2 hc.symm
            simp [hm, hne]
          · by_cases hl2 : pyLower source = "bankofamerica"
            · have hm : sourceCaseMap source = "BankOfAmerica" := by
                simp [sourceCaseMap, hl1, hl2]
              have hne : ¬ ("BankOfAmerica" = source) := fun hc => h1 hc.symm
              simp [hm, hne]
            · by_cases hl3 : pyLower source = "restaurantdepot"
              · have hm : sourceCaseMap source = "RestaurantDepot" := by
                  simp [sourceCaseMap, hl1, hl2, hl3]
                have hne : ¬ ("RestaurantDepot" = source) := fun hc => h3 hc.symm
                simp [hm, hne]
              · by_cases hl4 : pyLower source = "sysco"
                · have hm : sourceCaseMap source = "Sysco" := by
                    simp [sourceCaseMap, hl1, hl2, hl3, hl4]
                  have hne : ¬ ("Sysco" = source) := fun hc => h4 hc.symm
                  simp [hm, hne]
                · have hm : sourceCaseMap source = source := by
                    simp [sourceCaseMap, hl1, hl2, hl3, hl4]
                  simp [hm, h1, h2, h3, h4]

theorem dispatchDelta_ok_iff (df : DFrame) (source : String) :
    (dispatchDelta df source).ok = true ↔
      (dispatchDelta df source).errs = [] := by
  rw [dispatchDelta_eq]
  by_cases hc : sourceCaseMap source = "Chase"
  · simp [hc, chaseDelta_ok_iff]
  · by_cases hb : sourceCaseMap source = "BankOfAmerica"
    · simp [hc, hb, boaDelta_ok_iff]
    · by_cases hr : sourceCaseMap source = "RestaurantDepot"
      · simp [hc, hb, hr, invoiceDelta_ok_iff]
      · by_cases hs : sourceCaseMap source = "Sysco"
        · simp [hc, hb, hr, hs, invoiceDelta_ok_iff]
        · simp [hc, hb, hr, hs, unknownDelta_ok_iff]

theorem detectChaseIssues_fixable (df : DFrame) :
    ∀ i ∈ detectChaseIssues df, i.fixable = true := by
  intro i hi
  unfold detectChaseIssues at hi
  split at hi
  · split at hi
    · simp at hi; subst hi; rfl
    · cases hi
  · split at hi
    · simp at hi; subst hi; rfl
    · cases hi

/-- Whenever source-specific detection reports an unfixable issue,
the corresponding source-specific validator appends an error. -/
theorem detect_unfixable_dispatch (df : DFrame) (source : String)
    (h : (detectSourceSpecificIssues (some df) source).filter
      (fun i => !i.fixable) ≠ []) :
    (dispatchDelta df source).errs ≠ [] := by
  rw [dispatchDelta_eq]
  unfold detectSourceSpecificIssues at h
  by_cases hc : sourceCaseMap source = "Chase"
  · exfalso
    apply h
    simp only [hc, if_pos, if_true]
    rw [List.filter_eq_nil_iff]
    intro i hi
    simp [detectChaseIssues_fixable df i hi]
  · by_cases hb : sourceCaseMap source = "BankOfAmerica"
    · simp only [hc, hb, if_false, if_pos, if_true] at h ⊢
      unfold detectBoaIssues at h
      by_cases hm : (boaMissing df).isEmpty
      · simp [hm] at h
      · simp [boaDelta]
        intro hmap
        exact hm (by simp [hmap])
    · by_cases hr : sourceCaseMap source = "RestaurantDepot"
      · simp only [hc, hb, hr, if_false, if_pos, if_true] at h ⊢
        unfold detectInvoiceIssues at h
        by_cases hm : df.cols.length < 3
        · simp [invoiceDelta, hm]
        · simp [hm] at h
      · by_cases hs : sourceCaseMap source = "Sysco"
        · simp only [hc, hb, hr, hs, if_false, if_pos, if_true] at h ⊢
          unfold detectInvoiceIssues at h
          by_cases hm : df.cols.length < 3
          · simp [invoiceDelta, hm]
          · simp [hm] at h
        · exfalso
          apply h
          simp [hc, hb, hr, hs]

theorem addBack_valid (r : VResult) :
    (addBackwardCompatibility r).valid = r.valid := by
  unfold addBackwardCompatibility
  split <;> rfl

theorem addBack_errors (r : VResult) :
    (addBackwardCompatibility r).errors = r.errors := by
  unfold addBackwardCompatibility
  split <;> rfl

theorem addBack_issues (r : VResult) :
    (addBackwardCompatibility r).issues_detected = r.issues_detected := by
  unfold addBackwardCompatibility
  split <;> rfl

theorem addBack_can_final (r : VResult)
    (h : (addBackwardCompatibility r).issues_detected.any
      (fun i => i.fixable) = true) :
    (addBackwardCompatibility r).can_proceed = false := by
  rw [addBack_issues] at h
  simp [addBackwardCompatibility, h]

theorem validateCsvFile_can_of_fix (f : FileModel) (source : String)
    (h : (validateCsvFile f source).issues_detected.any
      (fun i => i.fixable) = true) :
    (validateCsvFile f source).can_proceed = false := by
  unfold validateCsvFile at h ⊢
  by_cases h1 : f.fileFound
  case neg => simp [h1] at h
  case pos =>
    by_cases h2 : f.validType
    case neg => simp [h1, h2] at h
    case pos =>
      by_cases h3 : f.validSize
      case neg => simp [h1, h2, h3] at h
      case pos =>
        simp only [h1, h2, h3, Bool.not_true, Bool.false_eq_true,
          if_false] at h ⊢
        cases hr : f.read with
        | none =>
          simp only [hr] at h ⊢
          exact addBack_can_final _ h
        | some df =>
          simp only [hr] at h ⊢
          exact addBack_can_final _ h

theorem validateCsvFile_some_fields (f : FileModel) (source : String)
    (df : DFrame) (h1 : f.fileFound = true) (h2 : f.validType = true)
    (h3 : f.validSize = true) (hr : f.read = some df) :
    (validateCsvFile f source).valid =
      ((validateCsvStructure f.structRead source).1 &&
        (dispatchDelta df source).ok && (generalDelta df).ok) ∧
    (validateCsvFile f source).errors =
      ((detectSourceSpecificIssues (some df) source).filter
          (fun i => !i.fixable)).map (fun i => i.message) ++
        (if (validateCsvStructure f.structRead source).1 then []
          else (validateCsvStructure f.structRead source).2) ++
        (dispatchDelta df source).errs ++ (generalDelta df).errs ∧
    (validateCsvFile f source).issues_detected =
      detectSourceSpecificIssues (some df) source ++
        (dispatchDelta df source).issues ++ (generalDelta df).issues := by
  unfold validateCsvFile
  simp only [h1, h2, h3, Bool.not_true, Bool.false_eq_true, if_false, hr]
  by_cases hfx : ((detectSourceSpecificIssues (some df) source).filter
    (fun i => i.fixable)) = []
  all_goals by_cases hufx : ((detectSourceSpecificIssues (some df) source).filter
    (fun i => !i.fixable)) = []
  all_goals by_cases hsv : (validateCsvStructure f.structRead source).1 = true
  all_goals refine ⟨?_, ?_, ?_⟩
  all_goals simp [hfx, hufx, hsv, applyDelta, addBack_valid, addBack_errors,
    addBack_issues, List.isEmpty_iff]

theorem validateCsvFile_none_fields (f : FileModel) (source : String)
    (h1 : f.fileFound = true) (h2 : f.validType = true)
    (h3 : f.validSize = true) (hr : f.read = none) :
    (validateCsvFile f source).valid = false ∧
    (validateCsvFile f source).errors ≠ [] := by
  unfold validateCsvFile
  simp only [h1, h2, h3, Bool.not_true, Bool.false_eq_true, if_false, hr]
  by_cases hfx : ((detectSourceSpecificIssues none source).filter
    (fun i => i.fixable)) = []
  all_goals by_cases hufx : ((detectSourceSpecificIssues none source).filter
    (fun i => !i.fixable)) = []
  all_goals by_cases hsv : (validateCsvStructure f.structRead source).1 = true
  all_goals refine ⟨?_, ?_⟩
  all_goals simp [hfx, hufx, hsv, addBack_valid, addBack_errors,
    List.isEmpty_iff]

end ValidationService

/-- C3: every result of `validate_csv_file` satisfies the invariant
`valid = true` iff the errors list is empty; and `can_proceed` is false
whenever any issue tagged fixable remains in `issues_detected`.  The
first half holds because every error-producing path either sets `valid
= False` itself or (for the unfixable detector findings appended at
line 108 without touching `valid`) is mirrored by the source-specific
validator that re-detects the same condition and does set it; the
second half is enforced by `_add_backward_compatibility` on every
non-early return, and the early returns carry no issues. -/
theorem c3_validation_result_invariants (f : ValidationService.FileModel)
    (source : String) :
    ((ValidationService.validateCsvFile f source).valid = true ↔
      (ValidationService.validateCsvFile f source).errors = []) ∧
    ((ValidationService.validateCsvFile f source).issues_detected.any
        (fun i => i.fixable) = true →
      (ValidationService.validateCsvFile f source).can_proceed = false) := by
  refine ⟨?_, ValidationService.validateCsvFile_can_of_fix f source⟩
  by_cases h1 : f.fileFound = true
  case neg => simp [ValidationService.validateCsvFile, h1]
  by_cases h2 : f.validType = true
  case neg => simp [ValidationService.validateCsvFile, h1, h2]
  by_cases h3 : f.validSize = true
  case neg => simp [ValidationService.validateCsvFile, h1, h2, h3]
  cases hr : f.read with
  | none =>
    obtain ⟨hv, he⟩ :=
      ValidationService.validateCsvFile_none_fields f source h1 h2 h3 hr
    simp [hv, he]
  | some df =>
    obtain ⟨hv, he, -⟩ :=
      ValidationService.validateCsvFile_some_fields f source df h1 h2 h3 hr
    rw [hv, he]
    constructor
    · intro hok
      simp only [Bool.and_eq_true] at hok
      obtain ⟨⟨hsv, hdd⟩, hgd⟩ := hok
      have hsv2 := (ValidationService.validateCsvStructure_ok_iff
        f.structRead source).mp hsv
      have hdd2 := (ValidationService.dispatchDelta_ok_iff df source).mp hdd
      have hgd2 := (ValidationService.generalDelta_ok_iff df).mp hgd
      have hufx : ((ValidationService.detectSourceSpecificIssues
          (some df) source).filter (fun i => !i.fixable)) = [] := by
        by_contra hne
        exact ValidationService.detect_unfixable_dispatch df source hne hdd2
      simp [hufx, hsv, hsv2, hdd2, hgd2]
    · intro hnil
      simp only [List.append_eq_nil, List.map_eq_nil_iff] at hnil
      obtain ⟨⟨⟨ha, hb⟩, hc⟩, hd⟩ := hnil
      have hsv : (ValidationService.validateCsvStructure
          f.structRead source).1 = true := by
        by_cases h : (ValidationService.validateCsvStructure
          f.structRead source).1 = true
        · exact h
        · exact absurd ((ValidationService.validateCsvStructure_ok_iff
            f.structRead source).mpr (by simpa [h] using hb)) h
      simp [hsv, (ValidationService.dispatchDelta_ok_iff df source).mpr hc,
        (ValidationService.generalDelta_ok_iff df).mpr hd]

set_option maxRecDepth 8192 in
/-- Witness for C3: on a Chase file carrying a fixable
column-misalignment issue, the result obeys both invariants — in
particular `can_proceed` is forced false. -/
theorem c3_validation_result_invariants_witness :
    (ValidationService.validateCsvFile ValidationService.chaseDemoFile
        "Chase").issues_detected.any (fun i => i.fixable) = true ∧
    (ValidationService.validateCsvFile ValidationService.chaseDemoFile
        "Chase").can_proceed = false ∧
    ((ValidationService.validateCsvFile ValidationService.chaseDemoFile
        "Chase").valid = true ↔
      (ValidationService.validateCsvFile ValidationService.chaseDemoFile
        "Chase").errors = []) := by
  have h := c3_validation_result_invariants ValidationService.chaseDemoFile
    "Chase"
  exact ⟨by decide, h.2 (by decide), h.1⟩

namespace AutoFix

theorem fix_ops_shape (path : String) (csvRead : Option (List (List String)))
    (read : Option ValidationService.DFrame)
    (descTransform descClean amtClean : String → String) (source : String)
    (issue : ValidationService.Issue) :
    (applySourceSpecificFix path csvRead read descTransform descClean
      amtClean source issue).1 = [] ∨
    (applySourceSpecificFix path csvRead read descTransform descClean
      amtClean source issue).1 =
      [FsOp.backupWrite (withSuffixCsvBackup path), FsOp.fileWrite path] := by
  unfold applySourceSpecificFix
  split
  · unfold fixCsvFormattingIssues
    match csvRead with
    | none => exact Or.inl rfl
    | some [] => exact Or.inl rfl
    | some (h :: t) => exact Or.inr rfl
  · split
    · split
      · unfold fixChaseColumnMisalignment
        match read with
        | none => exact Or.inl rfl
        | some df => exact Or.inr rfl
      · exact Or.inl rfl
    · split
      · split
        · unfold fixChaseOptimization
          match read with
          | none => exact Or.inl rfl
          | some df => exact Or.inr rfl
        · exact Or.inl rfl
      · exact Or.inl rfl

theorem loop_ops_shape (path : String) (csvRead : Option (List (List String)))
    (read : Option ValidationService.DFrame)
    (descTransform descClean amtClean : String → String) (source : String)
    (issues : List ValidationService.Issue) :
    (∀ o ∈ (routeFixLoop path csvRead read descTransform descClean amtClean
        source issues).1, isValidateOp o = false) ∧
    (∀ seen : Bool, backupBeforeOverwriteGo seen
      (routeFixLoop path csvRead read descTransform descClean amtClean
        source issues).1 = true) ∧
    (∀ o ∈ (routeFixLoop path csvRead read descTransform descClean amtClean
        source issues).1, isBackupOp o = true →
      o = RouteOp.fs (FsOp.backupWrite (withSuffixCsvBackup path))) := by
  induction issues with
  | nil => exact ⟨fun o ho => absurd ho (by simp [routeFixLoop]),
      fun seen => rfl, fun o ho => absurd ho (by simp [routeFixLoop])⟩
  | cons issue rest ih =>
    obtain ⟨ih1, ih2, ih3⟩ := ih
    by_cases hf : issue.fixable = true
    · rcases fix_ops_shape path csvRead read descTransform descClean amtClean
        source issue with hsh | hsh
      · refine ⟨?_, ?_, ?_⟩
        · intro o ho
          apply ih1
          simpa [routeFixLoop, hf, hsh] using ho
        · intro seen
          simpa [routeFixLoop, hf, hsh] using ih2 seen
        · intro o ho
          apply ih3
          simpa [routeFixLoop, hf, hsh] using ho
      · refine ⟨?_, ?_, ?_⟩
        · intro o ho
          simp only [routeFixLoop, hf, if_true, hsh, List.map_cons,
            List.map_nil, List.cons_append, List.nil_append,
            List.mem_cons] at ho
          rcases ho with h | h | h
          · subst h; rfl
          · subst h; rfl
          · exact ih1 o h
        · intro seen
          simp only [routeFixLoop, hf, if_true, hsh, List.map_cons,
            List.map_nil, List.cons_append, List.nil_append]
          show backupBeforeOverwriteGo seen
            (RouteOp.fs (FsOp.backupWrite (withSuffixCsvBackup path)) ::
              RouteOp.fs (FsOp.fileWrite path) :: _) = true
          unfold backupBeforeOverwriteGo
          simp only [isBackupOp, if_true]
          unfold backupBeforeOverwriteGo
          simp only [isBackupOp, isFileWriteOp, if_false, Bool.true_and]
          exact ih2 true
        · intro o ho
          simp only [routeFixLoop, hf, if_true, hsh, List.map_cons,
            List.map_nil, List.cons_append, List.nil_append,
            List.mem_cons] at ho
          rcases ho with h | h | h
          · intro _; subst h; rfl
          · intro hb; subst h; simp [isBackupOp] at hb
          · exact ih3 o h
    · refine ⟨?_, ?_, ?_⟩
      · intro o ho
        apply ih1
        simpa [routeFixLoop, hf] using ho
      · intro seen
        simpa [routeFixLoop, hf] using ih2 seen
      · intro o ho
        apply ih3
        simpa [routeFixLoop, hf] using ho

end AutoFix

/-- C6 (amended): in every run of the fix route, each fix writes the
pre-fix file to the sibling `.csv.backup` before the original is
overwritten (every overwrite in the trace is preceded by a backup
write, and every backup in the trace targets the `.csv.backup`
sibling); but no follow-up re-validation occurs — the only validation
in the trace precedes all file writes, and fixes are reported
successful solely from the fix functions' own results. -/
theorem c6_fix_protocol_amended (path : String)
    (f : ValidationService.FileModel)
    (csvRead : Option (List (List String)))
    (descTransform descClean amtClean : String → String) (source : String) :
    AutoFix.backupBeforeOverwrite
      (AutoFix.applyAutomaticFixes path f csvRead descTransform descClean
        amtClean source).1 = true ∧
    AutoFix.revalidatedAfterFix
      (AutoFix.applyAutomaticFixes path f csvRead descTransform descClean
        amtClean source).1 = false ∧
    (∀ o ∈ (AutoFix.applyAutomaticFixes path f csvRead descTransform
        descClean amtClean source).1, AutoFix.isBackupOp o = true →
      o = AutoFix.RouteOp.fs
        (AutoFix.FsOp.backupWrite (AutoFix.withSuffixCsvBackup path))) := by
  obtain ⟨hval, hbk, hsib⟩ := AutoFix.loop_ops_shape path csvRead f.read
    descTransform descClean amtClean source
    (ValidationService.validateCsvFile f source).issues_detected
  have hops : (AutoFix.applyAutomaticFixes path f csvRead descTransform
      descClean amtClean source).1 = [] ∨
    (AutoFix.applyAutomaticFixes path f csvRead descTransform descClean
      amtClean source).1 =
      AutoFix.RouteOp.validateFile ::
        (AutoFix.routeFixLoop path csvRead f.read descTransform descClean
          amtClean source
          (ValidationService.validateCsvFile f source).issues_detected).1 := by
    unfold AutoFix.applyAutomaticFixes
    by_cases hf : f.fileFound = true
    · simp only [hf, Bool.not_true, Bool.false_eq_true, if_false]
      split <;> exact Or.inr rfl
    · simp only [Bool.not_eq_true] at hf
      simp only [hf, Bool.not_false, if_true]
      exact Or.inl trivial
  rcases hops with h | h <;> rw [h]
  · exact ⟨rfl, rfl, fun o ho => absurd ho (by simp)⟩
  · refine ⟨?_, ?_, ?_⟩
    · show AutoFix.backupBeforeOverwriteGo false _ = true
      unfold AutoFix.backupBeforeOverwriteGo
      simp only [AutoFix.isBackupOp, AutoFix.isFileWriteOp, if_false]
      exact hbk false
    · unfold AutoFix.revalidatedAfterFix
      rw [List.dropWhile_cons]
      simp only [AutoFix.isFileWriteOp, Bool.not_false, if_true]
      rw [List.any_eq_false]
      intro o ho
      have hm : o ∈ (AutoFix.routeFixLoop path csvRead f.read descTransform
          descClean amtClean source
          (ValidationService.validateCsvFile f source).issues_detected).1 :=
        (List.dropWhile_sublist _).subset ho
      simp [hval o hm]
    · intro o ho hb
      rcases List.mem_cons.mp ho with h1 | h1
      · subst h1; simp [AutoFix.isBackupOp] at hb
      · exact hsib o h1 hb

set_option maxRecDepth 8192 in
/-- Counterexample for C6 as stated: a concrete fix run (the Chase
column-misalignment fix on a Chase file with an over-long Description)
is reported successful while the trace contains no validation after
the file write — the fix is never re-validated by a follow-up
structural check before being reported successful. -/
theorem c6_fix_revalidation_counterexample :
    (AutoFix.applyAutomaticFixes "input.csv" ValidationService.chaseDemoFile
        none (fun s => s) (fun s => s) (fun s => s) "Chase").2.message =
      "Automatic fixes applied successfully" ∧
    AutoFix.revalidatedAfterFix
      (AutoFix.applyAutomaticFixes "input.csv" ValidationService.chaseDemoFile
        none (fun s => s) (fun s => s) (fun s => s) "Chase").1 = false ∧
    (AutoFix.applyAutomaticFixes "input.csv" ValidationService.chaseDemoFile
        none (fun s => s) (fun s => s) (fun s => s) "Chase").1 =
      [AutoFix.RouteOp.validateFile,
        AutoFix.RouteOp.fs (AutoFix.FsOp.backupWrite "input.csv.backup"),
        AutoFix.RouteOp.fs (AutoFix.FsOp.fileWrite "input.csv")] := by
  refine ⟨?_, ?_, ?_⟩ <;> rfl

set_option maxRecDepth 8192 in
/-- Witness for C6's amended theorem: on the concrete Chase fix run,
the trace keeps backup-before-overwrite, has no post-fix validation,
and its backup write targets the `.csv.backup` sibling. -/
theorem c6_fix_protocol_amended_witness :
    AutoFix.backupBeforeOverwrite
      (AutoFix.applyAutomaticFixes "input.csv" ValidationService.chaseDemoFile
        none (fun s => s) (fun s => s) (fun s => s) "Chase").1 = true ∧
    AutoFix.revalidatedAfterFix
      (AutoFix.applyAutomaticFixes "input.csv" ValidationService.chaseDemoFile
        none (fun s => s) (fun s => s) (fun s => s) "Chase").1 = false ∧
    AutoFix.RouteOp.fs (AutoFix.FsOp.backupWrite "input.csv.backup") =
      AutoFix.RouteOp.fs
        (AutoFix.FsOp.backupWrite (AutoFix.withSuffixCsvBackup "input.csv")) := by
  have h := c6_fix_protocol_amended "input.csv" ValidationService.chaseDemoFile
    none (fun s => s) (fun s => s) (fun s => s) "Chase"
  refine ⟨h.1, h.2.1,
    (h.2.2 (AutoFix.RouteOp.fs (AutoFix.FsOp.backupWrite "input.csv.backup"))
      (by decide) (by decide)).symm⟩
